import Mathlib

/-!
# Trackball motion pipeline (`firmware/trackball.c`)

A shallow embedding of the per-cycle pointing-device callback
`pointing_device_task_user`, the key handler `process_record_trackball` and the
layer handler `layer_state_set_trackball`.

Modelling conventions

* C `float`/`double` values are exact rationals (`ℚ`): every arithmetic
  operation of the source is the exact operation, without rounding error.
* `int8_t` report fields are integers; a conversion to `int8_t` keeps the low
  eight bits (two's complement), written with an explicit `% 256`.
* The file-scope variables of `trackball.c` are the fields of `TrackballState`;
  every function takes the state and returns the new one.
* `cos(rad)` and `sin(rad)` are library calls; their values are the
  parameters `cosr` and `sinr` of the functions that use them. The rotation is
  written over any field, so that it can also be read in `ℝ` with `Real.cos`
  and `Real.sin`.
* `tap_code16` calls are recorded as a list of emitted taps.
-/

namespace Trackball

/-! ## Configuration constants (`trackball.c` lines 8-17, 30; `config.h` line 32) -/

/-- Move sensitivity, `#define MOVEMENT_SENSITIVITY 0.5f`. -/
def MOVEMENT_SENSITIVITY : ℚ := 0.5

/-- Smoothing factor, `#define SMOOTHING_FACTOR 0.7f`. -/
def SMOOTHING_FACTOR : ℚ := 0.7

/-- Sensitivity multiplier, `#define SENSITIVITY_MULTIPLIER 1.5f`. -/
def SENSITIVITY_MULTIPLIER : ℚ := 1.5

/-- Horizontal scroll divisor, `#define SCROLL_DIVISOR_H 1.0`. -/
def SCROLL_DIVISOR_H : ℚ := 1.0

/-- Vertical scroll divisor, `#define SCROLL_DIVISOR_V 1.0`. -/
def SCROLL_DIVISOR_V : ℚ := 1.0

/-- Scroll sensitivity, `#define SENSOR_MULTIPLIER 0.02`. -/
def SENSOR_MULTIPLIER : ℚ := 0.02

/-- Scroll step limit, `#define MAX_SCROLL_STEP 1`: declared as the per-cycle scroll limit; no
line of `trackball.c` reads it. -/
def MAX_SCROLL_STEP : ℤ := 1

/-- Gesture threshold, `#define GESTURE_THRESHOLD 50.0f`. -/
def GESTURE_THRESHOLD : ℚ := 50.0

/-- Auto-mouse layer, `#define AUTO_MOUSE_DEFAULT_LAYER 3`. -/
def AUTO_MOUSE_DEFAULT_LAYER : ℕ := 3

/-- Rotation angle in degrees, `#define ROTATION_ANGLE_45_DEG 45.0f`. -/
def ROTATION_ANGLE_45_DEG : ℚ := 45.0

/-- Rational stand-in for the library value `cos(45°) = sin(45°) ≈ 0.70710678`,
used where a concrete run of the pipeline is evaluated. -/
def cos45 : ℚ := 0.70710678

/-! ## Data model -/

/-- The file-scope variables of `trackball.c` (lines 20-35). -/
structure TrackballState where
  set_scrolling : Bool
  drag_scroll_pressed : Bool
  scroll_accumulated_h : ℚ
  scroll_accumulated_v : ℚ
  gesture_mode : Bool
  gesture_accumulated_x : ℚ
  gesture_triggered : Bool
  x_accumulator : ℚ
  y_accumulator : ℚ
  prev_x : ℚ
  prev_y : ℚ
deriving DecidableEq

/-- The initial values of the file-scope variables. -/
def TrackballState.init : TrackballState where
  set_scrolling := false
  drag_scroll_pressed := false
  scroll_accumulated_h := 0
  scroll_accumulated_v := 0
  gesture_mode := false
  gesture_accumulated_x := 0
  gesture_triggered := false
  x_accumulator := 0
  y_accumulator := 0
  prev_x := 0
  prev_y := 0

/-- The host's mouse report: a button mask and four `int8_t` fields. The
type is declared by the host framework; its fields are integers here and
`report_mouse_t.int8` says that they are in the `int8_t` range. -/
structure report_mouse_t where
  buttons : ℕ
  x : ℤ
  y : ℤ
  v : ℤ
  h : ℤ
deriving DecidableEq

/-- All four motion fields of a report are `int8_t` values. -/
def report_mouse_t.int8 (r : report_mouse_t) : Prop :=
  (-128 ≤ r.x ∧ r.x ≤ 127) ∧ (-128 ≤ r.y ∧ r.y ≤ 127) ∧
  (-128 ≤ r.v ∧ r.v ≤ 127) ∧ (-128 ≤ r.h ∧ r.h ≤ 127)

instance (r : report_mouse_t) : Decidable r.int8 := by
  unfold report_mouse_t.int8; infer_instance

/-- The two key taps the pipeline sends through `tap_code16`. -/
inductive KeyTap where
  /-- Navigate back, `tap_code16(LCTL(KC_LEFT))`. -/
  | LCTL_KC_LEFT
  /-- Navigate forward, `tap_code16(LCTL(KC_RIGHT))`. -/
  | LCTL_KC_RIGHT
deriving DecidableEq

/-- What one call of `pointing_device_task_user` produces: the new values of
the file-scope variables, the returned report and the taps sent. -/
structure Outcome where
  state : TrackballState
  report : report_mouse_t
  taps : List KeyTap

/-! ## Conversions -/

/-- Conversion of a float to a C integer: the fractional part is discarded
(truncation toward zero). -/
def trunc (q : ℚ) : ℤ := if 0 ≤ q then ⌊q⌋ else ⌈q⌉

/-- Narrowing of an integer to `int8_t`: the low eight bits, two's complement. -/
def to_int8 (z : ℤ) : ℤ := (z + 128) % 256 - 128

/-! ## `pointing_device_task_user` (lines 49-137) -/

/-- Lines 51-67: the gesture detector, fed with the raw `mouse_report.x`. -/
def gesture_detect (st : TrackballState) (r : report_mouse_t) :
    TrackballState × List KeyTap :=
  if st.gesture_mode && !st.gesture_triggered then
    let acc := st.gesture_accumulated_x + (r.x : ℚ)
    if acc < -GESTURE_THRESHOLD then
      ({ st with gesture_triggered := true, gesture_accumulated_x := 0 },
        [KeyTap.LCTL_KC_LEFT])
    else if acc > GESTURE_THRESHOLD then
      ({ st with gesture_triggered := true, gesture_accumulated_x := 0 },
        [KeyTap.LCTL_KC_RIGHT])
    else
      ({ st with gesture_accumulated_x := acc }, [])
  else
    (st, [])

/-- Line 71: `rotated_x = -(x * cos(rad) - y * sin(rad))`. The number type `K`
is `ℚ` wherever the pipeline is run, and `ℝ` where the library values of
`cos` and `sin` themselves are meant. -/
def rotated_x {K : Type} [Field K] (cosr sinr : K) (r : report_mouse_t) : K :=
  -((r.x : K) * cosr - (r.y : K) * sinr)

/-- Line 72: `rotated_y = -(x * sin(rad) + y * cos(rad))`, over the same
number type as `rotated_x`. -/
def rotated_y {K : Type} [Field K] (cosr sinr : K) (r : report_mouse_t) : K :=
  -((r.x : K) * sinr + (r.y : K) * cosr)

/-- Line 75: the smoothed x, the value stored into `prev_x` at line 77. -/
def smoothed_x (cosr sinr : ℚ) (st : TrackballState) (r : report_mouse_t) : ℚ :=
  st.prev_x * SMOOTHING_FACTOR + rotated_x cosr sinr r * (1.0 - SMOOTHING_FACTOR)

/-- Line 76: the smoothed y, the value stored into `prev_y` at line 78. -/
def smoothed_y (cosr sinr : ℚ) (st : TrackballState) (r : report_mouse_t) : ℚ :=
  st.prev_y * SMOOTHING_FACTOR + rotated_y cosr sinr r * (1.0 - SMOOTHING_FACTOR)

/-- Line 81: `smoothed_x *= SENSITIVITY_MULTIPLIER`. -/
def scaled_x (cosr sinr : ℚ) (st : TrackballState) (r : report_mouse_t) : ℚ :=
  smoothed_x cosr sinr st r * SENSITIVITY_MULTIPLIER

/-- Line 82: `smoothed_y *= SENSITIVITY_MULTIPLIER`. -/
def scaled_y (cosr sinr : ℚ) (st : TrackballState) (r : report_mouse_t) : ℚ :=
  smoothed_y cosr sinr st r * SENSITIVITY_MULTIPLIER

/-- Lines 86-90: the scroll axis choice. Returns the pair
`(smoothed_x, smoothed_y)` after one of the two has been set to 0. The `(int)`
casts are truncations; `int` is not given a width. -/
def scroll_axis (sx sy : ℚ) : ℚ × ℚ :=
  if |trunc sx| > |trunc sy| then (sx, 0) else (0, sy)

/-- Lines 96-100 and 103-107: the emitted scroll step of one axis,
`(int8_t)floorf(acc)` for `acc >= 0` and `(int8_t)ceilf(acc)` otherwise. -/
def scroll_step (acc : ℚ) : ℤ :=
  if acc ≥ 0 then to_int8 ⌊acc⌋ else to_int8 ⌈acc⌉

/-- Lines 85-116: the scroll branch, from the scaled smoothed vector. -/
def scroll_branch (sx sy : ℚ) (st : TrackballState) (r : report_mouse_t) :
    TrackballState × report_mouse_t :=
  let axis := scroll_axis sx sy
  let acc_v := st.scroll_accumulated_v + SENSOR_MULTIPLIER * axis.2 / SCROLL_DIVISOR_V
  let acc_h := st.scroll_accumulated_h + SENSOR_MULTIPLIER * axis.1 / SCROLL_DIVISOR_H
  let scroll_v := scroll_step acc_v
  let scroll_h := scroll_step acc_h
  ({ st with scroll_accumulated_v := acc_v - (scroll_v : ℚ),
             scroll_accumulated_h := acc_h - (scroll_h : ℚ) },
   { r with v := scroll_v, h := scroll_h, x := 0, y := 0 })

/-- Line 92: the value of `scroll_accumulated_v` after the `+=`, before the
emitted step is subtracted at line 112. -/
def scroll_acc_v (cosr sinr : ℚ) (st : TrackballState) (r : report_mouse_t) : ℚ :=
  st.scroll_accumulated_v + SENSOR_MULTIPLIER *
    (scroll_axis (scaled_x cosr sinr st r) (scaled_y cosr sinr st r)).2 / SCROLL_DIVISOR_V

/-- Line 93: the value of `scroll_accumulated_h` after the `+=`, before the
emitted step is subtracted at line 113. -/
def scroll_acc_h (cosr sinr : ℚ) (st : TrackballState) (r : report_mouse_t) : ℚ :=
  st.scroll_accumulated_h + SENSOR_MULTIPLIER *
    (scroll_axis (scaled_x cosr sinr st r) (scaled_y cosr sinr st r)).1 / SCROLL_DIVISOR_H

/-- Lines 122-127 and 129-134: one move axis. Returns the emitted report field
and the new accumulator, from the accumulator after the addition. -/
def move_axis (acc : ℚ) : ℤ × ℚ :=
  if |acc| ≥ 1.0 then
    let out := to_int8 (trunc acc)
    (out, acc - (out : ℚ))
  else
    (0, acc)

/-- Lines 119-134: the move branch, from the scaled smoothed vector. -/
def move_branch (sx sy : ℚ) (st : TrackballState) (r : report_mouse_t) :
    TrackballState × report_mouse_t :=
  let mx := move_axis (st.x_accumulator + sx * MOVEMENT_SENSITIVITY)
  let my := move_axis (st.y_accumulator + sy * MOVEMENT_SENSITIVITY)
  ({ st with x_accumulator := mx.2, y_accumulator := my.2 },
   { r with x := mx.1, y := my.1 })

/-- Lines 49-137: one polling cycle. -/
def pointing_device_task_user (cosr sinr : ℚ) (st : TrackballState)
    (mouse_report : report_mouse_t) : Outcome :=
  let g := gesture_detect st mouse_report
  let sx := scaled_x cosr sinr st mouse_report
  let sy := scaled_y cosr sinr st mouse_report
  let st1 : TrackballState :=
    { g.1 with prev_x := smoothed_x cosr sinr st mouse_report,
               prev_y := smoothed_y cosr sinr st mouse_report }
  let res := if st.set_scrolling then scroll_branch sx sy st1 mouse_report
             else move_branch sx sy st1 mouse_report
  { state := res.1, report := res.2, taps := g.2 }

/-! ## Key and layer handlers (lines 140-164) -/

/-- The drag-scroll keycode, `DRAG_SCROLL = SAFE_RANGE` (`trackball.h` line 9);
`SAFE_RANGE` is the host framework's first free keycode. -/
def DRAG_SCROLL (SAFE_RANGE : ℕ) : ℕ := SAFE_RANGE

/-- The gesture keycode `KC_GESTURE`, the enumerator after `DRAG_SCROLL` (`trackball.h` line 10). -/
def KC_GESTURE (SAFE_RANGE : ℕ) : ℕ := SAFE_RANGE + 1

/-- Lines 140-154. The second component is the returned `bool`. -/
def process_record_trackball (SAFE_RANGE keycode : ℕ) (pressed : Bool)
    (st : TrackballState) : TrackballState × Bool :=
  if keycode = DRAG_SCROLL SAFE_RANGE then
    if pressed then
      ({ st with drag_scroll_pressed := true, set_scrolling := true }, false)
    else
      ({ st with drag_scroll_pressed := false, set_scrolling := false,
                 scroll_accumulated_v := 0 }, false)
  else
    (st, true)

/-- Modelled from the spec: `get_highest_layer` is host-framework code that is
not part of the sources; it gives the index of the highest active layer of a
layer bitmask (0 for the empty mask). -/
def get_highest_layer (state : ℕ) : ℕ := Nat.log2 state

/-- Lines 157-164. The second component is the returned layer state. -/
def layer_state_set_trackball (state : ℕ) (st : TrackballState) :
    TrackballState × ℕ :=
  if !st.drag_scroll_pressed && get_highest_layer state != AUTO_MOUSE_DEFAULT_LAYER then
    ({ st with set_scrolling := false, scroll_accumulated_v := 0 }, state)
  else
    (st, state)

/-! ## Runs -/

/-- The outcomes of consecutive polling cycles, one per input report. -/
def run (cosr sinr : ℚ) : TrackballState → List report_mouse_t → List Outcome
  | _, [] => []
  | st, r :: rs =>
    let o := pointing_device_task_user cosr sinr st r
    o :: run cosr sinr o.state rs

/-- The state after consecutive polling cycles. -/
def run_state (cosr sinr : ℚ) : TrackballState → List report_mouse_t → TrackballState
  | st, [] => st
  | st, r :: rs => run_state cosr sinr (pointing_device_task_user cosr sinr st r).state rs

/-- The amounts added to `x_accumulator` at line 119 in consecutive cycles. -/
def move_inputs_x (cosr sinr : ℚ) : TrackballState → List report_mouse_t → List ℚ
  | _, [] => []
  | st, r :: rs =>
    scaled_x cosr sinr st r * MOVEMENT_SENSITIVITY ::
      move_inputs_x cosr sinr (pointing_device_task_user cosr sinr st r).state rs

/-- The amounts added to `y_accumulator` at line 120 in consecutive cycles. -/
def move_inputs_y (cosr sinr : ℚ) : TrackballState → List report_mouse_t → List ℚ
  | _, [] => []
  | st, r :: rs =>
    scaled_y cosr sinr st r * MOVEMENT_SENSITIVITY ::
      move_inputs_y cosr sinr (pointing_device_task_user cosr sinr st r).state rs

/-- Consecutive passes through the move branch (lines 119-134), one per scaled
smoothed vector `(smoothed_x, smoothed_y)` handed to it; `r` is the incoming
report of every pass. -/
def run_move_branch : TrackballState → report_mouse_t → List (ℚ × ℚ) →
    List (TrackballState × report_mouse_t)
  | _, _, [] => []
  | st, r, d :: ds =>
    let o := move_branch d.1 d.2 st r
    o :: run_move_branch o.1 r ds

/-- The states the firmware can be in: the initial state, and what the three
entry points make of a reachable state (polling cycles receive `int8_t`
reports). -/
inductive Reachable (cosr sinr : ℚ) (SAFE_RANGE : ℕ) : TrackballState → Prop
  | init : Reachable cosr sinr SAFE_RANGE TrackballState.init
  | cycle (st : TrackballState) (r : report_mouse_t) :
      Reachable cosr sinr SAFE_RANGE st → r.int8 →
      Reachable cosr sinr SAFE_RANGE (pointing_device_task_user cosr sinr st r).state
  | key (st : TrackballState) (keycode : ℕ) (pressed : Bool) :
      Reachable cosr sinr SAFE_RANGE st →
      Reachable cosr sinr SAFE_RANGE
        (process_record_trackball SAFE_RANGE keycode pressed st).1
  | layer (st : TrackballState) (state : ℕ) :
      Reachable cosr sinr SAFE_RANGE st →
      Reachable cosr sinr SAFE_RANGE (layer_state_set_trackball state st).1

/-- The facts about a reachable state that keep the scroll steps in the
`int8_t` range: a bounded filter history and sub-unit scroll remainders. -/
def ScrollInv (st : TrackballState) : Prop :=
  |st.prev_x| ≤ 256 ∧ |st.prev_y| ≤ 256 ∧
  |st.scroll_accumulated_v| < 1 ∧ |st.scroll_accumulated_h| < 1

/-! ## Field lemmas -/

section Fields

variable (cosr sinr : ℚ) (st : TrackballState) (r : report_mouse_t)

@[simp] theorem gesture_detect_set_scrolling :
    (gesture_detect st r).1.set_scrolling = st.set_scrolling := by
  unfold gesture_detect; dsimp only; split_ifs <;> rfl

@[simp] theorem gesture_detect_drag_scroll_pressed :
    (gesture_detect st r).1.drag_scroll_pressed = st.drag_scroll_pressed := by
  unfold gesture_detect; dsimp only; split_ifs <;> rfl

@[simp] theorem gesture_detect_scroll_accumulated_h :
    (gesture_detect st r).1.scroll_accumulated_h = st.scroll_accumulated_h := by
  unfold gesture_detect; dsimp only; split_ifs <;> rfl

@[simp] theorem gesture_detect_scroll_accumulated_v :
    (gesture_detect st r).1.scroll_accumulated_v = st.scroll_accumulated_v := by
  unfold gesture_detect; dsimp only; split_ifs <;> rfl

@[simp] theorem gesture_detect_gesture_mode :
    (gesture_detect st r).1.gesture_mode = st.gesture_mode := by
  unfold gesture_detect; dsimp only; split_ifs <;> rfl

@[simp] theorem gesture_detect_x_accumulator :
    (gesture_detect st r).1.x_accumulator = st.x_accumulator := by
  unfold gesture_detect; dsimp only; split_ifs <;> rfl

@[simp] theorem gesture_detect_y_accumulator :
    (gesture_detect st r).1.y_accumulator = st.y_accumulator := by
  unfold gesture_detect; dsimp only; split_ifs <;> rfl

/-- A cycle never changes the mode flag. -/
@[simp] theorem cycle_set_scrolling :
    (pointing_device_task_user cosr sinr st r).state.set_scrolling = st.set_scrolling := by
  unfold pointing_device_task_user
  cases h : st.set_scrolling <;> simp [h, scroll_branch, move_branch]

/-- A cycle never changes the drag key flag. -/
@[simp] theorem cycle_drag_scroll_pressed :
    (pointing_device_task_user cosr sinr st r).state.drag_scroll_pressed
      = st.drag_scroll_pressed := by
  unfold pointing_device_task_user
  cases h : st.set_scrolling <;> simp [h, scroll_branch, move_branch]

/-- The filter state after a cycle, in either mode. -/
@[simp] theorem cycle_prev_x :
    (pointing_device_task_user cosr sinr st r).state.prev_x = smoothed_x cosr sinr st r := by
  unfold pointing_device_task_user
  cases h : st.set_scrolling <;> simp [h, scroll_branch, move_branch]

@[simp] theorem cycle_prev_y :
    (pointing_device_task_user cosr sinr st r).state.prev_y = smoothed_y cosr sinr st r := by
  unfold pointing_device_task_user
  cases h : st.set_scrolling <;> simp [h, scroll_branch, move_branch]

/-- The taps of a cycle are those of the gesture detector. -/
theorem cycle_taps :
    (pointing_device_task_user cosr sinr st r).taps = (gesture_detect st r).2 := rfl

/-- The gesture fields after a cycle are those the gesture detector leaves. -/
theorem cycle_gesture :
    (pointing_device_task_user cosr sinr st r).state.gesture_mode = st.gesture_mode ∧
    (pointing_device_task_user cosr sinr st r).state.gesture_triggered
      = (gesture_detect st r).1.gesture_triggered ∧
    (pointing_device_task_user cosr sinr st r).state.gesture_accumulated_x
      = (gesture_detect st r).1.gesture_accumulated_x := by
  unfold pointing_device_task_user
  cases h : st.set_scrolling <;> simp [h, scroll_branch, move_branch]

/-- The move branch of a cycle, field by field. -/
theorem cycle_move (h : st.set_scrolling = false) :
    (pointing_device_task_user cosr sinr st r).report.x
      = (move_axis (st.x_accumulator + scaled_x cosr sinr st r * MOVEMENT_SENSITIVITY)).1 ∧
    (pointing_device_task_user cosr sinr st r).state.x_accumulator
      = (move_axis (st.x_accumulator + scaled_x cosr sinr st r * MOVEMENT_SENSITIVITY)).2 ∧
    (pointing_device_task_user cosr sinr st r).report.y
      = (move_axis (st.y_accumulator + scaled_y cosr sinr st r * MOVEMENT_SENSITIVITY)).1 ∧
    (pointing_device_task_user cosr sinr st r).state.y_accumulator
      = (move_axis (st.y_accumulator + scaled_y cosr sinr st r * MOVEMENT_SENSITIVITY)).2 ∧
    (pointing_device_task_user cosr sinr st r).report.v = r.v ∧
    (pointing_device_task_user cosr sinr st r).report.h = r.h := by
  simp [pointing_device_task_user, h, move_branch]

/-- The scroll branch of a cycle, field by field. -/
theorem cycle_scroll (h : st.set_scrolling = true) :
    (pointing_device_task_user cosr sinr st r).report.v
      = scroll_step (scroll_acc_v cosr sinr st r) ∧
    (pointing_device_task_user cosr sinr st r).report.h
      = scroll_step (scroll_acc_h cosr sinr st r) ∧
    (pointing_device_task_user cosr sinr st r).state.scroll_accumulated_v
      = scroll_acc_v cosr sinr st r - (scroll_step (scroll_acc_v cosr sinr st r) : ℚ) ∧
    (pointing_device_task_user cosr sinr st r).state.scroll_accumulated_h
      = scroll_acc_h cosr sinr st r - (scroll_step (scroll_acc_h cosr sinr st r) : ℚ) ∧
    (pointing_device_task_user cosr sinr st r).report.x = 0 ∧
    (pointing_device_task_user cosr sinr st r).report.y = 0 := by
  simp [pointing_device_task_user, h, scroll_branch, scroll_acc_v, scroll_acc_h]

/-- A move-mode cycle leaves the scroll accumulators alone. -/
theorem cycle_move_scroll_frame (h : st.set_scrolling = false) :
    (pointing_device_task_user cosr sinr st r).state.scroll_accumulated_v
      = st.scroll_accumulated_v ∧
    (pointing_device_task_user cosr sinr st r).state.scroll_accumulated_h
      = st.scroll_accumulated_h := by
  simp [pointing_device_task_user, h, move_branch]

end Fields

/-! ## Move accumulators -/

/-- One move axis hands out exactly what it takes from the accumulator. -/
theorem move_axis_conserve (acc : ℚ) :
    ((move_axis acc).1 : ℚ) + (move_axis acc).2 = acc := by
  unfold move_axis
  dsimp only
  split_ifs <;> simp

/-- C1. Remainder conservation for the move accumulators: over any sequence of
move-mode cycles, from any state, the sum of the reported x deltas plus the final
`x_accumulator` equals the initial `x_accumulator` plus the sum of the amounts
`smoothed_x * MOVEMENT_SENSITIVITY` added cycle by cycle, and likewise for y. -/
theorem move_conservation (cosr sinr : ℚ) (rs : List report_mouse_t) (st : TrackballState)
    (hmove : st.set_scrolling = false) :
    (((run cosr sinr st rs).map (fun o => (o.report.x : ℚ))).sum
        + (run_state cosr sinr st rs).x_accumulator
      = st.x_accumulator + (move_inputs_x cosr sinr st rs).sum) ∧
    (((run cosr sinr st rs).map (fun o => (o.report.y : ℚ))).sum
        + (run_state cosr sinr st rs).y_accumulator
      = st.y_accumulator + (move_inputs_y cosr sinr st rs).sum) := by
  induction rs generalizing st with
  | nil => simp [run, run_state, move_inputs_x, move_inputs_y]
  | cons r rs ih =>
    have hnext : (pointing_device_task_user cosr sinr st r).state.set_scrolling = false := by
      simpa using hmove
    obtain ⟨ihx, ihy⟩ := ih _ hnext
    obtain ⟨hx, hax, hy, hay, -, -⟩ := cycle_move cosr sinr st r hmove
    have cx := move_axis_conserve
      (st.x_accumulator + scaled_x cosr sinr st r * MOVEMENT_SENSITIVITY)
    have cy := move_axis_conserve
      (st.y_accumulator + scaled_y cosr sinr st r * MOVEMENT_SENSITIVITY)
    rw [← hx, ← hax] at cx
    rw [← hy, ← hay] at cy
    simp only [run, run_state, move_inputs_x, move_inputs_y, List.map_cons, List.sum_cons]
    constructor <;> linarith

/-- Witness for C1: two move-mode cycles from the initial state. -/
theorem move_conservation_witness :
    TrackballState.init.set_scrolling = false ∧
    ((((run cos45 cos45 TrackballState.init [⟨0, 3, -2, 0, 0⟩, ⟨0, -7, 1, 0, 0⟩]).map
          (fun o => (o.report.x : ℚ))).sum
        + (run_state cos45 cos45 TrackballState.init
            [⟨0, 3, -2, 0, 0⟩, ⟨0, -7, 1, 0, 0⟩]).x_accumulator
      = TrackballState.init.x_accumulator
        + (move_inputs_x cos45 cos45 TrackballState.init
            [⟨0, 3, -2, 0, 0⟩, ⟨0, -7, 1, 0, 0⟩]).sum) ∧
    (((run cos45 cos45 TrackballState.init [⟨0, 3, -2, 0, 0⟩, ⟨0, -7, 1, 0, 0⟩]).map
          (fun o => (o.report.y : ℚ))).sum
        + (run_state cos45 cos45 TrackballState.init
            [⟨0, 3, -2, 0, 0⟩, ⟨0, -7, 1, 0, 0⟩]).y_accumulator
      = TrackballState.init.y_accumulator
        + (move_inputs_y cos45 cos45 TrackballState.init
            [⟨0, 3, -2, 0, 0⟩, ⟨0, -7, 1, 0, 0⟩]).sum)) :=
  ⟨rfl, move_conservation cos45 cos45 [⟨0, 3, -2, 0, 0⟩, ⟨0, -7, 1, 0, 0⟩]
    TrackballState.init rfl⟩

/-! ## Conversions: range and error -/

/-- Narrowing is the identity on the `int8_t` range. -/
theorem to_int8_of_range (z : ℤ) (hlo : -128 ≤ z) (hhi : z ≤ 127) : to_int8 z = z := by
  unfold to_int8; omega

/-- Narrowing always lands in the `int8_t` range. -/
theorem to_int8_range (z : ℤ) : -128 ≤ to_int8 z ∧ to_int8 z ≤ 127 := by
  unfold to_int8; omega

/-- Truncation discards less than one unit, and never changes the sign. -/
theorem trunc_error (q : ℚ) :
    |q - (trunc q : ℚ)| < 1 ∧ (0 ≤ q → 0 ≤ q - (trunc q : ℚ)) ∧
      (q < 0 → q - (trunc q : ℚ) ≤ 0) := by
  unfold trunc
  split_ifs with h
  · have h1 := Int.floor_le q
    have h2 := Int.lt_floor_add_one q
    refine ⟨?_, fun _ => by linarith, fun h3 => by linarith⟩
    rw [abs_lt]; constructor <;> linarith
  · have h1 := Int.le_ceil q
    have h2 := Int.ceil_lt_add_one q
    refine ⟨?_, fun h3 => by linarith, fun _ => by linarith⟩
    rw [abs_lt]; constructor <;> linarith

/-- The truncation of a value below 128 in magnitude is an `int8_t`. -/
theorem trunc_range (q : ℚ) (h : |q| < 128) : -128 ≤ trunc q ∧ trunc q ≤ 127 := by
  have hq := abs_lt.mp h
  unfold trunc
  split_ifs with h0
  · have h1 : ⌊q⌋ < 128 := Int.floor_lt.mpr (by exact_mod_cast hq.2)
    have h2 : 0 ≤ ⌊q⌋ := Int.floor_nonneg.mpr h0
    omega
  · have h1 : -128 < ⌈q⌉ := Int.lt_ceil.mpr (by exact_mod_cast hq.1)
    have h2 : ⌈q⌉ ≤ 0 := Int.ceil_le.mpr (by push_neg at h0; exact_mod_cast h0.le)
    omega

/-- While the accumulated value is below 128 in magnitude, a move axis reports
its truncation and keeps a remainder below one unit. -/
theorem move_axis_in_range (acc : ℚ) (h : |acc| < 128) :
    |(move_axis acc).2| < 1 ∧ ((move_axis acc).1 = trunc acc ∨ (move_axis acc).1 = 0) := by
  obtain ⟨hlo, hhi⟩ := trunc_range acc h
  unfold move_axis
  dsimp only
  split_ifs with h1
  · rw [to_int8_of_range _ hlo hhi]
    exact ⟨(trunc_error acc).1, Or.inl rfl⟩
  · refine ⟨?_, Or.inr rfl⟩
    push_neg at h1
    norm_num at h1
    exact h1

/-- Consecutive cycles on `int8_t` reports keep the state reachable. -/
theorem reachable_run_state (cosr sinr : ℚ) (SAFE_RANGE : ℕ) (rs : List report_mouse_t)
    (st : TrackballState) (hst : Reachable cosr sinr SAFE_RANGE st)
    (hrs : ∀ r ∈ rs, r.int8) :
    Reachable cosr sinr SAFE_RANGE (run_state cosr sinr st rs) := by
  induction rs generalizing st with
  | nil => exact hst
  | cons r rs ih =>
    simp only [run_state]
    exact ih _ (Reachable.cycle st r hst (hrs r (List.mem_cons_self r rs)))
      (fun q hq => hrs q (List.mem_cons_of_mem r hq))

/-- C2. Bounded move remainder, evaluated where it fails: eight move-mode cycles
on the `int8_t` sample (-127, 127) from the initial state lead to a reachable
state from which a ninth cycle on the same sample accumulates more than 128 at
line 119, more than an `int8_t` report can take away; the narrowed report is
-127 and `x_accumulator` is left above 256. -/
theorem move_remainder_overflow (SAFE_RANGE : ℕ) :
    Reachable cos45 cos45 SAFE_RANGE
      (run_state cos45 cos45 TrackballState.init
        (List.replicate 8 ⟨0, -127, 127, 0, 0⟩)) ∧
    (run_state cos45 cos45 TrackballState.init
        (List.replicate 8 ⟨0, -127, 127, 0, 0⟩)).set_scrolling = false ∧
    report_mouse_t.int8 ⟨0, -127, 127, 0, 0⟩ ∧
    128 < (run_state cos45 cos45 TrackballState.init
          (List.replicate 8 ⟨0, -127, 127, 0, 0⟩)).x_accumulator
        + scaled_x cos45 cos45
            (run_state cos45 cos45 TrackballState.init
              (List.replicate 8 ⟨0, -127, 127, 0, 0⟩))
            ⟨0, -127, 127, 0, 0⟩ * MOVEMENT_SENSITIVITY ∧
    (pointing_device_task_user cos45 cos45
        (run_state cos45 cos45 TrackballState.init
          (List.replicate 8 ⟨0, -127, 127, 0, 0⟩))
        ⟨0, -127, 127, 0, 0⟩).report.x = -127 ∧
    256 < |(pointing_device_task_user cos45 cos45
        (run_state cos45 cos45 TrackballState.init
          (List.replicate 8 ⟨0, -127, 127, 0, 0⟩))
        ⟨0, -127, 127, 0, 0⟩).state.x_accumulator| := by
  refine ⟨?_, by decide!, by decide!, by decide!, by decide!, by decide!⟩
  exact reachable_run_state cos45 cos45 SAFE_RANGE _ _ Reachable.init (by decide!)

/-- C3, as stated, fails: in move mode a report that arrives with `v = 1` is
returned with `v = 1`. -/
theorem mode_exclusivity_counterexample :
    ¬ (TrackballState.init.set_scrolling = false →
        (pointing_device_task_user cos45 cos45 TrackballState.init
            ⟨0, 0, 0, 1, 0⟩).report.v = 0 ∧
        (pointing_device_task_user cos45 cos45 TrackballState.init
            ⟨0, 0, 0, 1, 0⟩).report.h = 0) := by
  decide!

/-- C3, amended. Mode routing: in scroll mode the returned x and y are both 0;
in move mode the returned v and h are the v and h of the input report, hence
both 0 whenever the input report carries no scroll. -/
theorem mode_routing (cosr sinr : ℚ) (st : TrackballState) (r : report_mouse_t) :
    (st.set_scrolling = true →
      (pointing_device_task_user cosr sinr st r).report.x = 0 ∧
      (pointing_device_task_user cosr sinr st r).report.y = 0) ∧
    (st.set_scrolling = false →
      (pointing_device_task_user cosr sinr st r).report.v = r.v ∧
      (pointing_device_task_user cosr sinr st r).report.h = r.h) ∧
    (st.set_scrolling = false → r.v = 0 → r.h = 0 →
      (pointing_device_task_user cosr sinr st r).report.v = 0 ∧
      (pointing_device_task_user cosr sinr st r).report.h = 0) := by
  refine ⟨fun h => ?_, fun h => ?_, fun h hv hh => ?_⟩
  · obtain ⟨-, -, -, -, hx, hy⟩ := cycle_scroll cosr sinr st r h
    exact ⟨hx, hy⟩
  · obtain ⟨-, -, -, -, hv, hh⟩ := cycle_move cosr sinr st r h
    exact ⟨hv, hh⟩
  · obtain ⟨-, -, -, -, hv1, hh1⟩ := cycle_move cosr sinr st r h
    exact ⟨hv1.trans hv, hh1.trans hh⟩

/-- Witness for C3: a scroll-mode cycle and a move-mode cycle on the sample
(3, 4) from the initial variables. -/
theorem mode_routing_witness :
    ((pointing_device_task_user cos45 cos45
        { TrackballState.init with set_scrolling := true } ⟨0, 3, 4, 0, 0⟩).report.x = 0 ∧
      (pointing_device_task_user cos45 cos45
        { TrackballState.init with set_scrolling := true } ⟨0, 3, 4, 0, 0⟩).report.y = 0) ∧
    ((pointing_device_task_user cos45 cos45 TrackballState.init ⟨0, 3, 4, 0, 0⟩).report.v = 0 ∧
      (pointing_device_task_user cos45 cos45 TrackballState.init ⟨0, 3, 4, 0, 0⟩).report.h = 0) :=
  ⟨(mode_routing cos45 cos45 { TrackballState.init with set_scrolling := true }
      ⟨0, 3, 4, 0, 0⟩).1 rfl,
   (mode_routing cos45 cos45 TrackballState.init ⟨0, 3, 4, 0, 0⟩).2.2 rfl rfl rfl⟩

/-- C4. Scroll step limit, evaluated where it fails: after a press of the
drag-scroll key and one cycle on the `int8_t` sample (-100, -100), a second
scroll-mode cycle on the same sample returns `v = 2`, above `MAX_SCROLL_STEP`. -/
theorem scroll_step_exceeds_max (SAFE_RANGE : ℕ) :
    Reachable cos45 cos45 SAFE_RANGE
      (pointing_device_task_user cos45 cos45
        (process_record_trackball SAFE_RANGE (DRAG_SCROLL SAFE_RANGE) true
          TrackballState.init).1 ⟨0, -100, -100, 0, 0⟩).state ∧
    (pointing_device_task_user cos45 cos45
        (process_record_trackball SAFE_RANGE (DRAG_SCROLL SAFE_RANGE) true
          TrackballState.init).1 ⟨0, -100, -100, 0, 0⟩).state.set_scrolling = true ∧
    report_mouse_t.int8 ⟨0, -100, -100, 0, 0⟩ ∧
    (pointing_device_task_user cos45 cos45
      (pointing_device_task_user cos45 cos45
        (process_record_trackball SAFE_RANGE (DRAG_SCROLL SAFE_RANGE) true
          TrackballState.init).1 ⟨0, -100, -100, 0, 0⟩).state
      ⟨0, -100, -100, 0, 0⟩).report.v = 2 ∧
    MAX_SCROLL_STEP < |(pointing_device_task_user cos45 cos45
      (pointing_device_task_user cos45 cos45
        (process_record_trackball SAFE_RANGE (DRAG_SCROLL SAFE_RANGE) true
          TrackballState.init).1 ⟨0, -100, -100, 0, 0⟩).state
      ⟨0, -100, -100, 0, 0⟩).report.v| := by
  have hkey : (process_record_trackball SAFE_RANGE (DRAG_SCROLL SAFE_RANGE) true
      TrackballState.init).1 = { TrackballState.init with
        drag_scroll_pressed := true, set_scrolling := true } := by
    simp [process_record_trackball]
  refine ⟨?_, ?_, by decide!, ?_, ?_⟩
  · exact Reachable.cycle _ _ (Reachable.key _ _ _ Reachable.init) (by decide!)
  · rw [hkey]; decide!
  · rw [hkey]; decide!
  · rw [hkey]; decide!

/-! ## Scroll accumulators -/

/-- While the accumulated value is below 128 in magnitude, the emitted scroll
step is its rounding toward zero. -/
theorem scroll_step_in_range (acc : ℚ) (h : |acc| < 128) :
    scroll_step acc = if acc ≥ 0 then ⌊acc⌋ else ⌈acc⌉ := by
  obtain ⟨hlo, hhi⟩ := trunc_range acc h
  unfold trunc at hlo hhi
  unfold scroll_step
  split_ifs with h0
  · rw [if_pos h0] at hlo hhi
    exact to_int8_of_range _ hlo hhi
  · rw [if_neg h0] at hlo hhi
    exact to_int8_of_range _ hlo hhi

/-- The rotated vector of an `int8_t` sample is at most 256 in magnitude. -/
theorem rotated_bound (cosr sinr : ℚ) (r : report_mouse_t) (hc : |cosr| ≤ 1)
    (hs : |sinr| ≤ 1) (hr : r.int8) :
    |rotated_x cosr sinr r| ≤ 256 ∧ |rotated_y cosr sinr r| ≤ 256 := by
  obtain ⟨⟨hx1, hx2⟩, ⟨hy1, hy2⟩, -, -⟩ := hr
  have hx : |(r.x : ℚ)| ≤ 128 := by
    rw [abs_le]; constructor
    · exact_mod_cast hx1
    · have : (r.x : ℚ) ≤ 127 := by exact_mod_cast hx2
      linarith
  have hy : |(r.y : ℚ)| ≤ 128 := by
    rw [abs_le]; constructor
    · exact_mod_cast hy1
    · have : (r.y : ℚ) ≤ 127 := by exact_mod_cast hy2
      linarith
  have m (a b : ℚ) (ha : |a| ≤ 128) (hb : |b| ≤ 1) : |a * b| ≤ 128 := by
    rw [abs_mul]
    calc |a| * |b| ≤ 128 * 1 := mul_le_mul ha hb (abs_nonneg b) (by norm_num)
      _ = 128 := by norm_num
  have h1 := abs_le.mp (m _ _ hx hc)
  have h2 := abs_le.mp (m _ _ hy hs)
  have h3 := abs_le.mp (m _ _ hx hs)
  have h4 := abs_le.mp (m _ _ hy hc)
  unfold rotated_x rotated_y
  constructor <;> rw [abs_le] <;> constructor <;> linarith [h1.1, h1.2, h2.1, h2.2, h3.1, h3.2, h4.1, h4.2]

/-- The smoothing filter keeps a history bounded by 256 within 256. -/
theorem smoothed_bound (cosr sinr : ℚ) (st : TrackballState) (r : report_mouse_t)
    (hc : |cosr| ≤ 1) (hs : |sinr| ≤ 1) (hr : r.int8)
    (hpx : |st.prev_x| ≤ 256) (hpy : |st.prev_y| ≤ 256) :
    |smoothed_x cosr sinr st r| ≤ 256 ∧ |smoothed_y cosr sinr st r| ≤ 256 := by
  obtain ⟨hx, hy⟩ := rotated_bound cosr sinr r hc hs hr
  rw [abs_le] at hx hy hpx hpy
  unfold smoothed_x smoothed_y SMOOTHING_FACTOR
  constructor <;> rw [abs_le] <;> constructor <;> norm_num <;> linarith [hx.1, hx.2, hy.1, hy.2, hpx.1, hpx.2, hpy.1, hpy.2]

/-- What the scroll axis choice leaves of a vector is no larger than the vector. -/
theorem scroll_axis_bound (sx sy B : ℚ) (hB : 0 ≤ B) (hx : |sx| ≤ B) (hy : |sy| ≤ B) :
    |(scroll_axis sx sy).1| ≤ B ∧ |(scroll_axis sx sy).2| ≤ B := by
  unfold scroll_axis
  split_ifs <;> simp [hx, hy, hB]

/-- From a state with bounded history and sub-unit scroll remainders, the value
accumulated by a scroll-mode cycle stays far below 128. -/
theorem scroll_acc_bound (cosr sinr : ℚ) (st : TrackballState) (r : report_mouse_t)
    (hc : |cosr| ≤ 1) (hs : |sinr| ≤ 1) (hr : r.int8) (hinv : ScrollInv st) :
    |scroll_acc_v cosr sinr st r| < 128 ∧ |scroll_acc_h cosr sinr st r| < 128 := by
  obtain ⟨hpx, hpy, hv, hh⟩ := hinv
  obtain ⟨hx, hy⟩ := smoothed_bound cosr sinr st r hc hs hr hpx hpy
  have hsx : |scaled_x cosr sinr st r| ≤ 384 := by
    unfold scaled_x SENSITIVITY_MULTIPLIER
    rw [abs_le] at hx ⊢
    constructor <;> norm_num <;> linarith [hx.1, hx.2]
  have hsy : |scaled_y cosr sinr st r| ≤ 384 := by
    unfold scaled_y SENSITIVITY_MULTIPLIER
    rw [abs_le] at hy ⊢
    constructor <;> norm_num <;> linarith [hy.1, hy.2]
  obtain ⟨h1, h2⟩ := scroll_axis_bound _ _ 384 (by norm_num) hsx hsy
  rw [abs_le] at h1 h2
  rw [abs_lt] at hv hh
  unfold scroll_acc_v scroll_acc_h SENSOR_MULTIPLIER SCROLL_DIVISOR_V SCROLL_DIVISOR_H
  constructor <;> rw [abs_lt] <;> constructor <;> norm_num <;>
    linarith [h1.1, h1.2, h2.1, h2.2, hv.1, hv.2, hh.1, hh.2]

/-- Rounding toward zero leaves a remainder below one unit. -/
theorem round_toward_zero_error (acc : ℚ) :
    |acc - (((if acc ≥ 0 then ⌊acc⌋ else ⌈acc⌉ : ℤ)) : ℚ)| < 1 := by
  have h := (trunc_error acc).1
  unfold trunc at h
  exact h

/-- Every entry point keeps the history bounded and the scroll remainders
below one unit. -/
theorem reachable_scrollInv (cosr sinr : ℚ) (SAFE_RANGE : ℕ) (st : TrackballState)
    (hc : |cosr| ≤ 1) (hs : |sinr| ≤ 1) (hst : Reachable cosr sinr SAFE_RANGE st) :
    ScrollInv st := by
  induction hst with
  | init => simp [ScrollInv, TrackballState.init]
  | cycle st r _ hr ih =>
    obtain ⟨hx, hy⟩ := smoothed_bound cosr sinr st r hc hs hr ih.1 ih.2.1
    refine ⟨by simpa using hx, by simpa using hy, ?_⟩
    cases hm : st.set_scrolling with
    | true =>
      obtain ⟨hbv, hbh⟩ := scroll_acc_bound cosr sinr st r hc hs hr ih
      obtain ⟨-, -, hv, hh, -, -⟩ := cycle_scroll cosr sinr st r hm
      rw [hv, hh, scroll_step_in_range _ hbv, scroll_step_in_range _ hbh]
      exact ⟨round_toward_zero_error _, round_toward_zero_error _⟩
    | false =>
      obtain ⟨hv, hh⟩ := cycle_move_scroll_frame cosr sinr st r hm
      rw [hv, hh]
      exact ih.2.2
  | key st keycode pressed _ ih =>
    obtain ⟨h1, h2, h3, h4⟩ := ih
    unfold process_record_trackball
    split_ifs <;> simp [ScrollInv, h1, h2, h3, h4]
  | layer st state _ ih =>
    obtain ⟨h1, h2, h3, h4⟩ := ih
    unfold layer_state_set_trackball
    split_ifs <;> simp [ScrollInv, h1, h2, h3, h4]

/-- What a scroll-mode cycle adds to each scroll accumulator: the contribution
of the axis the choice keeps, and nothing on the other axis. -/
theorem scroll_acc_cases (cosr sinr : ℚ) (st : TrackballState) (r : report_mouse_t) :
    (|trunc (scaled_x cosr sinr st r)| > |trunc (scaled_y cosr sinr st r)| →
      scroll_acc_v cosr sinr st r = st.scroll_accumulated_v ∧
      scroll_acc_h cosr sinr st r = st.scroll_accumulated_h
        + SENSOR_MULTIPLIER * scaled_x cosr sinr st r / SCROLL_DIVISOR_H) ∧
    (¬ |trunc (scaled_x cosr sinr st r)| > |trunc (scaled_y cosr sinr st r)| →
      scroll_acc_h cosr sinr st r = st.scroll_accumulated_h ∧
      scroll_acc_v cosr sinr st r = st.scroll_accumulated_v
        + SENSOR_MULTIPLIER * scaled_y cosr sinr st r / SCROLL_DIVISOR_V) := by
  unfold scroll_acc_v scroll_acc_h scroll_axis
  constructor <;> intro h
  · rw [if_pos h]; simp
  · rw [if_neg h]; simp

/-- C6. Scroll axis exclusivity: in a scroll-mode cycle, from any state and on
any sample, the amount added to `scroll_accumulated_v` (its value before the
emitted step is subtracted, minus its old value) is zero, or the amount added
to `scroll_accumulated_h` is. -/
theorem scroll_axis_exclusive (cosr sinr : ℚ) (st : TrackballState) (r : report_mouse_t)
    (hscroll : st.set_scrolling = true) :
    (pointing_device_task_user cosr sinr st r).state.scroll_accumulated_v
        + ((pointing_device_task_user cosr sinr st r).report.v : ℚ)
        - st.scroll_accumulated_v = 0 ∨
    (pointing_device_task_user cosr sinr st r).state.scroll_accumulated_h
        + ((pointing_device_task_user cosr sinr st r).report.h : ℚ)
        - st.scroll_accumulated_h = 0 := by
  obtain ⟨-, -, hav, hah, -, -⟩ := cycle_scroll cosr sinr st r hscroll
  obtain ⟨hv, hh, -, -, -, -⟩ := cycle_scroll cosr sinr st r hscroll
  rw [hav, hah, hv, hh]
  obtain ⟨h1, h2⟩ := scroll_acc_cases cosr sinr st r
  by_cases h : |trunc (scaled_x cosr sinr st r)| > |trunc (scaled_y cosr sinr st r)|
  · left; rw [(h1 h).1]; ring
  · right; rw [(h2 h).1]; ring

/-- Witness for C6: a scroll-mode cycle on the sample (3, 4). -/
theorem scroll_axis_exclusive_witness :
    { TrackballState.init with set_scrolling := true }.set_scrolling = true ∧
    ((pointing_device_task_user cos45 cos45
        { TrackballState.init with set_scrolling := true } ⟨0, 3, 4, 0, 0⟩).state.scroll_accumulated_v
        + ((pointing_device_task_user cos45 cos45
        { TrackballState.init with set_scrolling := true } ⟨0, 3, 4, 0, 0⟩).report.v : ℚ)
        - { TrackballState.init with set_scrolling := true }.scroll_accumulated_v = 0 ∨
    (pointing_device_task_user cos45 cos45
        { TrackballState.init with set_scrolling := true } ⟨0, 3, 4, 0, 0⟩).state.scroll_accumulated_h
        + ((pointing_device_task_user cos45 cos45
        { TrackballState.init with set_scrolling := true } ⟨0, 3, 4, 0, 0⟩).report.h : ℚ)
        - { TrackballState.init with set_scrolling := true }.scroll_accumulated_h = 0) :=
  ⟨rfl, scroll_axis_exclusive cos45 cos45 { TrackballState.init with set_scrolling := true } ⟨0, 3, 4, 0, 0⟩ rfl⟩

/-- C7, as stated, fails: on the sample (-5, 1) from rest the scaled smoothed
vector is about (1.91, 1.27), so the rounded x magnitude 2 exceeds the rounded y
magnitude 1, yet the cycle accumulates the vertical axis and adds nothing to
the horizontal one. -/
theorem scroll_axis_round_counterexample :
    ¬ (|round (scaled_x cos45 cos45 { TrackballState.init with set_scrolling := true } ⟨0, -5, 1, 0, 0⟩)|
          > |round (scaled_y cos45 cos45 { TrackballState.init with set_scrolling := true } ⟨0, -5, 1, 0, 0⟩)| →
      (pointing_device_task_user cos45 cos45
        { TrackballState.init with set_scrolling := true } ⟨0, -5, 1, 0, 0⟩).state.scroll_accumulated_v
          + ((pointing_device_task_user cos45 cos45
        { TrackballState.init with set_scrolling := true } ⟨0, -5, 1, 0, 0⟩).report.v : ℚ)
        = { TrackballState.init with set_scrolling := true }.scroll_accumulated_v ∧
      (pointing_device_task_user cos45 cos45
        { TrackballState.init with set_scrolling := true } ⟨0, -5, 1, 0, 0⟩).state.scroll_accumulated_h
          + ((pointing_device_task_user cos45 cos45
        { TrackballState.init with set_scrolling := true } ⟨0, -5, 1, 0, 0⟩).report.h : ℚ)
        = { TrackballState.init with set_scrolling := true }.scroll_accumulated_h
          + SENSOR_MULTIPLIER * scaled_x cos45 cos45
        { TrackballState.init with set_scrolling := true } ⟨0, -5, 1, 0, 0⟩ / SCROLL_DIVISOR_H) := by
  decide!

/-- C7, amended. Scroll axis selection: in a scroll-mode cycle the surviving
axis is decided by comparing the magnitudes of the scaled smoothed x and y
after truncation toward zero (the integer cast): when the truncated x
magnitude is the larger, nothing is added to the vertical accumulator and the
horizontal contribution is accumulated; when the truncated y magnitude is the
larger, nothing is added to the horizontal accumulator and the vertical
contribution is accumulated. -/
theorem scroll_axis_selection (cosr sinr : ℚ) (st : TrackballState) (r : report_mouse_t)
    (hscroll : st.set_scrolling = true) :
    (|trunc (scaled_x cosr sinr st r)| > |trunc (scaled_y cosr sinr st r)| →
      (pointing_device_task_user cosr sinr st r).state.scroll_accumulated_v
          + ((pointing_device_task_user cosr sinr st r).report.v : ℚ)
        = st.scroll_accumulated_v ∧
      (pointing_device_task_user cosr sinr st r).state.scroll_accumulated_h
          + ((pointing_device_task_user cosr sinr st r).report.h : ℚ)
        = st.scroll_accumulated_h
          + SENSOR_MULTIPLIER * scaled_x cosr sinr st r / SCROLL_DIVISOR_H) ∧
    (|trunc (scaled_y cosr sinr st r)| > |trunc (scaled_x cosr sinr st r)| →
      (pointing_device_task_user cosr sinr st r).state.scroll_accumulated_h
          + ((pointing_device_task_user cosr sinr st r).report.h : ℚ)
        = st.scroll_accumulated_h ∧
      (pointing_device_task_user cosr sinr st r).state.scroll_accumulated_v
          + ((pointing_device_task_user cosr sinr st r).report.v : ℚ)
        = st.scroll_accumulated_v
          + SENSOR_MULTIPLIER * scaled_y cosr sinr st r / SCROLL_DIVISOR_V) := by
  obtain ⟨hv, hh, hav, hah, -, -⟩ := cycle_scroll cosr sinr st r hscroll
  obtain ⟨h1, h2⟩ := scroll_acc_cases cosr sinr st r
  rw [hav, hah, hv, hh]
  constructor <;> intro h
  · obtain ⟨e1, e2⟩ := h1 h
    rw [← e1, ← e2]; constructor <;> ring
  · obtain ⟨e1, e2⟩ := h2 (not_lt.mpr h.le)
    rw [← e1, ← e2]; constructor <;> ring

/-- Witness for C7: the sample (-10, 10) scrolls horizontally and the sample
(-10, -10) scrolls vertically. -/
theorem scroll_axis_selection_witness :
    ({ TrackballState.init with set_scrolling := true }.set_scrolling = true ∧
      |trunc (scaled_x cos45 cos45 { TrackballState.init with set_scrolling := true } ⟨0, -10, 10, 0, 0⟩)|
        > |trunc (scaled_y cos45 cos45 { TrackballState.init with set_scrolling := true } ⟨0, -10, 10, 0, 0⟩)| ∧
      |trunc (scaled_y cos45 cos45 { TrackballState.init with set_scrolling := true } ⟨0, -10, -10, 0, 0⟩)|
        > |trunc (scaled_x cos45 cos45 { TrackballState.init with set_scrolling := true } ⟨0, -10, -10, 0, 0⟩)|) ∧
    ((pointing_device_task_user cos45 cos45
        { TrackballState.init with set_scrolling := true } ⟨0, -10, 10, 0, 0⟩).state.scroll_accumulated_v
          + ((pointing_device_task_user cos45 cos45
        { TrackballState.init with set_scrolling := true } ⟨0, -10, 10, 0, 0⟩).report.v : ℚ)
        = { TrackballState.init with set_scrolling := true }.scroll_accumulated_v ∧
      (pointing_device_task_user cos45 cos45
        { TrackballState.init with set_scrolling := true } ⟨0, -10, 10, 0, 0⟩).state.scroll_accumulated_h
          + ((pointing_device_task_user cos45 cos45
        { TrackballState.init with set_scrolling := true } ⟨0, -10, 10, 0, 0⟩).report.h : ℚ)
        = { TrackballState.init with set_scrolling := true }.scroll_accumulated_h
          + SENSOR_MULTIPLIER * scaled_x cos45 cos45
        { TrackballState.init with set_scrolling := true } ⟨0, -10, 10, 0, 0⟩ / SCROLL_DIVISOR_H) ∧
    ((pointing_device_task_user cos45 cos45
        { TrackballState.init with set_scrolling := true } ⟨0, -10, -10, 0, 0⟩).state.scroll_accumulated_h
          + ((pointing_device_task_user cos45 cos45
        { TrackballState.init with set_scrolling := true } ⟨0, -10, -10, 0, 0⟩).report.h : ℚ)
        = { TrackballState.init with set_scrolling := true }.scroll_accumulated_h ∧
      (pointing_device_task_user cos45 cos45
        { TrackballState.init with set_scrolling := true } ⟨0, -10, -10, 0, 0⟩).state.scroll_accumulated_v
          + ((pointing_device_task_user cos45 cos45
        { TrackballState.init with set_scrolling := true } ⟨0, -10, -10, 0, 0⟩).report.v : ℚ)
        = { TrackballState.init with set_scrolling := true }.scroll_accumulated_v
          + SENSOR_MULTIPLIER * scaled_y cos45 cos45
        { TrackballState.init with set_scrolling := true } ⟨0, -10, -10, 0, 0⟩ / SCROLL_DIVISOR_V) :=
  ⟨⟨rfl, by decide!, by decide!⟩,
   (scroll_axis_selection cos45 cos45 { TrackballState.init with set_scrolling := true } ⟨0, -10, 10, 0, 0⟩ rfl).1 (by decide!),
   (scroll_axis_selection cos45 cos45 { TrackballState.init with set_scrolling := true } ⟨0, -10, -10, 0, 0⟩ rfl).2 (by decide!)⟩

/-! ## Gesture detector -/

/-- Once latched, the gesture detector is the identity and sends nothing. -/
theorem gesture_detect_latched (st : TrackballState) (r : report_mouse_t)
    (h : st.gesture_triggered = true) : gesture_detect st r = (st, []) := by
  unfold gesture_detect
  simp [h]

/-- The armed gesture detector, by the position of the new sum. -/
theorem gesture_detect_armed (st : TrackballState) (r : report_mouse_t)
    (hm : st.gesture_mode = true) (ht : st.gesture_triggered = false) :
    (st.gesture_accumulated_x + (r.x : ℚ) < -50 →
      gesture_detect st r =
        ({ st with gesture_triggered := true, gesture_accumulated_x := 0 },
          [KeyTap.LCTL_KC_LEFT])) ∧
    (st.gesture_accumulated_x + (r.x : ℚ) > 50 →
      gesture_detect st r =
        ({ st with gesture_triggered := true, gesture_accumulated_x := 0 },
          [KeyTap.LCTL_KC_RIGHT])) ∧
    (-50 ≤ st.gesture_accumulated_x + (r.x : ℚ) →
      st.gesture_accumulated_x + (r.x : ℚ) ≤ 50 →
      gesture_detect st r =
        ({ st with gesture_accumulated_x := st.gesture_accumulated_x + (r.x : ℚ) }, [])) := by
  unfold gesture_detect GESTURE_THRESHOLD
  simp only [hm, ht, Bool.not_false, Bool.and_self, if_true]
  refine ⟨fun h => ?_, fun h => ?_, fun h1 h2 => ?_⟩
  · rw [if_pos (by norm_num; linarith)]
  · rw [if_neg (by norm_num; linarith), if_pos (by norm_num; linarith)]
  · rw [if_neg (by norm_num; linarith), if_neg (by norm_num; linarith)]

/-- C8. Gesture latch: from any state with `gesture_triggered = true`, over any
sequence of input samples, every cycle sends no key tap and leaves
`gesture_triggered`, `gesture_accumulated_x` and `gesture_mode` as they were. -/
theorem gesture_latch (cosr sinr : ℚ) (rs : List report_mouse_t) (st : TrackballState)
    (hlatched : st.gesture_triggered = true) :
    ∀ o ∈ run cosr sinr st rs,
      o.taps = [] ∧ o.state.gesture_triggered = true ∧
      o.state.gesture_accumulated_x = st.gesture_accumulated_x ∧
      o.state.gesture_mode = st.gesture_mode := by
  induction rs generalizing st with
  | nil => intro o ho; simp [run] at ho
  | cons r rs ih =>
    obtain ⟨hm, ht, ha⟩ := cycle_gesture cosr sinr st r
    have hg := gesture_detect_latched st r hlatched
    rw [hg] at ht ha
    have htaps : (pointing_device_task_user cosr sinr st r).taps = [] := by
      rw [cycle_taps, hg]
    intro o ho
    simp only [run, List.mem_cons] at ho
    rcases ho with rfl | ho
    · exact ⟨htaps, ht.trans hlatched, ha, hm⟩
    · obtain ⟨h1, h2, h3, h4⟩ := ih _ (ht.trans hlatched) o ho
      exact ⟨h1, h2, h3.trans ha, h4.trans hm⟩

/-- Witness for C8: three cycles of leftward motion in the latched state. -/
theorem gesture_latch_witness :
    ({ TrackballState.init with gesture_mode := true, gesture_triggered := true }
      : TrackballState).gesture_triggered = true ∧
    ∀ o ∈ run cos45 cos45
        { TrackballState.init with gesture_mode := true, gesture_triggered := true }
        [⟨0, -60, 0, 0, 0⟩, ⟨0, -60, 2, 0, 0⟩, ⟨0, -60, 0, 0, 0⟩],
      o.taps = [] ∧ o.state.gesture_triggered = true ∧
      o.state.gesture_accumulated_x
        = ({ TrackballState.init with gesture_mode := true, gesture_triggered := true }
            : TrackballState).gesture_accumulated_x ∧
      o.state.gesture_mode
        = ({ TrackballState.init with gesture_mode := true, gesture_triggered := true }
            : TrackballState).gesture_mode :=
  ⟨rfl, gesture_latch cos45 cos45 [⟨0, -60, 0, 0, 0⟩, ⟨0, -60, 2, 0, 0⟩, ⟨0, -60, 0, 0, 0⟩]
    { TrackballState.init with gesture_mode := true, gesture_triggered := true } rfl⟩

/-- C9. Gesture trigger: from any state with `gesture_mode = true` and
`gesture_triggered = false`, one cycle adds the raw x to `gesture_accumulated_x`;
a sum strictly below -50 sends exactly one Ctrl+Left tap, a sum strictly above
+50 sends exactly one Ctrl+Right tap, and both set `gesture_triggered` and
reset `gesture_accumulated_x` to 0; any other sum, -50 and +50 included, sends
no tap and is kept. From an accumulated 0 with raw x = -15 on each of five
cycles, cycles 1-3 send nothing, cycle 4 sends exactly one Ctrl+Left tap, cycle
5 sends nothing, and `gesture_accumulated_x` is -15, -30, -45, 0, 0. -/
theorem gesture_trigger (cosr sinr : ℚ) (st : TrackballState)
    (hmode : st.gesture_mode = true) (harmed : st.gesture_triggered = false) :
    (∀ r : report_mouse_t,
      (st.gesture_accumulated_x + (r.x : ℚ) < -50 →
        (pointing_device_task_user cosr sinr st r).taps = [KeyTap.LCTL_KC_LEFT] ∧
        (pointing_device_task_user cosr sinr st r).state.gesture_triggered = true ∧
        (pointing_device_task_user cosr sinr st r).state.gesture_accumulated_x = 0) ∧
      (st.gesture_accumulated_x + (r.x : ℚ) > 50 →
        (pointing_device_task_user cosr sinr st r).taps = [KeyTap.LCTL_KC_RIGHT] ∧
        (pointing_device_task_user cosr sinr st r).state.gesture_triggered = true ∧
        (pointing_device_task_user cosr sinr st r).state.gesture_accumulated_x = 0) ∧
      (-50 ≤ st.gesture_accumulated_x + (r.x : ℚ) →
        st.gesture_accumulated_x + (r.x : ℚ) ≤ 50 →
        (pointing_device_task_user cosr sinr st r).taps = [] ∧
        (pointing_device_task_user cosr sinr st r).state.gesture_triggered = false ∧
        (pointing_device_task_user cosr sinr st r).state.gesture_accumulated_x
          = st.gesture_accumulated_x + (r.x : ℚ))) ∧
    (∀ r1 r2 r3 r4 r5 : report_mouse_t,
      st.gesture_accumulated_x = 0 →
      r1.x = -15 → r2.x = -15 → r3.x = -15 → r4.x = -15 → r5.x = -15 →
      (run cosr sinr st [r1, r2, r3, r4, r5]).map (fun o => o.taps)
        = [[], [], [], [KeyTap.LCTL_KC_LEFT], []] ∧
      (run cosr sinr st [r1, r2, r3, r4, r5]).map (fun o => o.state.gesture_accumulated_x)
        = [-15, -30, -45, 0, 0]) := by
  have step (s : TrackballState) (r : report_mouse_t) (hm : s.gesture_mode = true)
      (ht : s.gesture_triggered = false) :
      (s.gesture_accumulated_x + (r.x : ℚ) < -50 →
        (pointing_device_task_user cosr sinr s r).taps = [KeyTap.LCTL_KC_LEFT] ∧
        (pointing_device_task_user cosr sinr s r).state.gesture_triggered = true ∧
        (pointing_device_task_user cosr sinr s r).state.gesture_accumulated_x = 0) ∧
      (s.gesture_accumulated_x + (r.x : ℚ) > 50 →
        (pointing_device_task_user cosr sinr s r).taps = [KeyTap.LCTL_KC_RIGHT] ∧
        (pointing_device_task_user cosr sinr s r).state.gesture_triggered = true ∧
        (pointing_device_task_user cosr sinr s r).state.gesture_accumulated_x = 0) ∧
      (-50 ≤ s.gesture_accumulated_x + (r.x : ℚ) →
        s.gesture_accumulated_x + (r.x : ℚ) ≤ 50 →
        (pointing_device_task_user cosr sinr s r).taps = [] ∧
        (pointing_device_task_user cosr sinr s r).state.gesture_triggered = false ∧
        (pointing_device_task_user cosr sinr s r).state.gesture_accumulated_x
          = s.gesture_accumulated_x + (r.x : ℚ)) := by
    obtain ⟨-, hgt, hga⟩ := cycle_gesture cosr sinr s r
    obtain ⟨h1, h2, h3⟩ := gesture_detect_armed s r hm ht
    rw [cycle_taps, hgt, hga]
    refine ⟨fun h => ?_, fun h => ?_, fun ha hb => ?_⟩
    · rw [h1 h]; exact ⟨rfl, rfl, rfl⟩
    · rw [h2 h]; exact ⟨rfl, rfl, rfl⟩
    · rw [h3 ha hb]; exact ⟨rfl, ht, rfl⟩
  refine ⟨fun r => step st r hmode harmed, ?_⟩
  intro r1 r2 r3 r4 r5 h0 e1 e2 e3 e4 e5
  have hm (s : TrackballState) (r : report_mouse_t) :
      (pointing_device_task_user cosr sinr s r).state.gesture_mode = s.gesture_mode :=
    (cycle_gesture cosr sinr s r).1
  -- cycle 1
  obtain ⟨t1, g1, a1⟩ := (step st r1 hmode harmed).2.2
    (by rw [h0, e1]; norm_num) (by rw [h0, e1]; norm_num)
  rw [h0, e1] at a1
  have m1 := (hm st r1).trans hmode
  -- cycle 2
  obtain ⟨t2, g2, a2⟩ := (step _ r2 m1 g1).2.2
    (by rw [a1, e2]; norm_num) (by rw [a1, e2]; norm_num)
  rw [a1, e2] at a2
  have m2 := (hm _ r2).trans m1
  -- cycle 3
  obtain ⟨t3, g3, a3⟩ := (step _ r3 m2 g2).2.2
    (by rw [a2, e3]; norm_num) (by rw [a2, e3]; norm_num)
  rw [a2, e3] at a3
  have m3 := (hm _ r3).trans m2
  -- cycle 4
  obtain ⟨t4, g4, a4⟩ := (step _ r4 m3 g3).1 (by rw [a3, e4]; norm_num)
  -- cycle 5
  obtain ⟨-, -, hga5⟩ := cycle_gesture cosr sinr
    (pointing_device_task_user cosr sinr (pointing_device_task_user cosr sinr
      (pointing_device_task_user cosr sinr (pointing_device_task_user cosr sinr st r1).state
        r2).state r3).state r4).state r5
  have hg5 := gesture_detect_latched _ r5 g4
  have t5 : (pointing_device_task_user cosr sinr
      (pointing_device_task_user cosr sinr (pointing_device_task_user cosr sinr
        (pointing_device_task_user cosr sinr (pointing_device_task_user cosr sinr st r1).state
          r2).state r3).state r4).state r5).taps = [] := by
    rw [cycle_taps, hg5]
  rw [hg5] at hga5
  simp only [run, List.map_cons, List.map_nil]
  rw [t1, t2, t3, t4, t5, a1, hga5, a4, a3, a2]
  norm_num

/-- Witness for C9: the leftward swipe from the armed state at rest. -/
theorem gesture_trigger_witness :
    (({ TrackballState.init with gesture_mode := true } : TrackballState).gesture_mode = true ∧
      ({ TrackballState.init with gesture_mode := true }
        : TrackballState).gesture_triggered = false) ∧
    ((run cos45 cos45 { TrackballState.init with gesture_mode := true }
        [⟨0, -15, 0, 0, 0⟩, ⟨0, -15, 0, 0, 0⟩, ⟨0, -15, 0, 0, 0⟩, ⟨0, -15, 0, 0, 0⟩,
          ⟨0, -15, 0, 0, 0⟩]).map (fun o => o.taps)
        = [[], [], [], [KeyTap.LCTL_KC_LEFT], []] ∧
      (run cos45 cos45 { TrackballState.init with gesture_mode := true }
        [⟨0, -15, 0, 0, 0⟩, ⟨0, -15, 0, 0, 0⟩, ⟨0, -15, 0, 0, 0⟩, ⟨0, -15, 0, 0, 0⟩,
          ⟨0, -15, 0, 0, 0⟩]).map (fun o => o.state.gesture_accumulated_x)
        = [-15, -30, -45, 0, 0]) :=
  ⟨⟨rfl, rfl⟩,
   (gesture_trigger cos45 cos45 { TrackballState.init with gesture_mode := true } rfl rfl).2
    ⟨0, -15, 0, 0, 0⟩ ⟨0, -15, 0, 0, 0⟩ ⟨0, -15, 0, 0, 0⟩ ⟨0, -15, 0, 0, 0⟩ ⟨0, -15, 0, 0, 0⟩
    rfl rfl rfl rfl rfl rfl⟩

/-! ## Drag-scroll key -/

/-- C10. Drag-scroll key transitions: from any state, `process_record_trackball`
on `DRAG_SCROLL` pressed sets `drag_scroll_pressed` and `set_scrolling` to true
and changes no other variable; on `DRAG_SCROLL` released it sets both flags to
false and `scroll_accumulated_v` to 0, and leaves `scroll_accumulated_h`, the
move accumulators, the filter state and the gesture state unchanged. -/
theorem drag_scroll_transitions (SAFE_RANGE : ℕ) (st : TrackballState) :
    ((process_record_trackball SAFE_RANGE (DRAG_SCROLL SAFE_RANGE) true st).1
        = { set_scrolling := true
            drag_scroll_pressed := true
            scroll_accumulated_h := st.scroll_accumulated_h
            scroll_accumulated_v := st.scroll_accumulated_v
            gesture_mode := st.gesture_mode
            gesture_accumulated_x := st.gesture_accumulated_x
            gesture_triggered := st.gesture_triggered
            x_accumulator := st.x_accumulator
            y_accumulator := st.y_accumulator
            prev_x := st.prev_x
            prev_y := st.prev_y }) ∧
    ((process_record_trackball SAFE_RANGE (DRAG_SCROLL SAFE_RANGE) false st).1
        = { set_scrolling := false
            drag_scroll_pressed := false
            scroll_accumulated_h := st.scroll_accumulated_h
            scroll_accumulated_v := 0
            gesture_mode := st.gesture_mode
            gesture_accumulated_x := st.gesture_accumulated_x
            gesture_triggered := st.gesture_triggered
            x_accumulator := st.x_accumulator
            y_accumulator := st.y_accumulator
            prev_x := st.prev_x
            prev_y := st.prev_y }) := by
  constructor <;> simp [process_record_trackball]

/-- C11. Key-event result and frame: `process_record_trackball` returns false
exactly when the keycode is `DRAG_SCROLL`; for every other keycode, pressed or
released, it returns true and leaves every variable unchanged. -/
theorem process_record_result (SAFE_RANGE keycode : ℕ) (pressed : Bool)
    (st : TrackballState) :
    ((process_record_trackball SAFE_RANGE keycode pressed st).2 = false
        ↔ keycode = DRAG_SCROLL SAFE_RANGE) ∧
    (keycode ≠ DRAG_SCROLL SAFE_RANGE →
      process_record_trackball SAFE_RANGE keycode pressed st = (st, true)) := by
  unfold process_record_trackball
  by_cases h : keycode = DRAG_SCROLL SAFE_RANGE
  · cases pressed <;> simp [h]
  · simp [h]

/-- Witness for C11: the gesture keycode, released, in scroll mode. -/
theorem process_record_result_witness :
    KC_GESTURE 100 ≠ DRAG_SCROLL 100 ∧
    process_record_trackball 100 (KC_GESTURE 100) false
        { TrackballState.init with set_scrolling := true, scroll_accumulated_v := 0.5 }
      = ({ TrackballState.init with set_scrolling := true, scroll_accumulated_v := 0.5 },
          true) :=
  ⟨by decide,
   (process_record_result 100 (KC_GESTURE 100) false
      { TrackballState.init with set_scrolling := true, scroll_accumulated_v := 0.5 }).2
    (by decide)⟩

/-! ## Layer changes -/

/-- C12. Layer-forced exit: `layer_state_set_trackball` returns its argument;
with `drag_scroll_pressed` false and a highest active layer other than 3 it sets
`set_scrolling` to false and `scroll_accumulated_v` to 0 and changes no other
variable, so that the next cycle goes through the move accumulators (its x and y
reports come from `x_accumulator` and `y_accumulator`, its v and h are those of
the input report, and the scroll accumulators stay put); with the drag key held
or the highest layer equal to 3 it leaves every variable unchanged. -/
theorem layer_forced_exit (cosr sinr : ℚ) (state : ℕ) (st : TrackballState)
    (r : report_mouse_t) :
    (layer_state_set_trackball state st).2 = state ∧
    (st.drag_scroll_pressed = false → get_highest_layer state ≠ 3 →
      (layer_state_set_trackball state st).1
          = { st with set_scrolling := false, scroll_accumulated_v := 0 } ∧
      (pointing_device_task_user cosr sinr (layer_state_set_trackball state st).1 r).report.x
          = (move_axis (st.x_accumulator
              + scaled_x cosr sinr st r * MOVEMENT_SENSITIVITY)).1 ∧
      (pointing_device_task_user cosr sinr (layer_state_set_trackball state st).1 r).report.y
          = (move_axis (st.y_accumulator
              + scaled_y cosr sinr st r * MOVEMENT_SENSITIVITY)).1 ∧
      (pointing_device_task_user cosr sinr (layer_state_set_trackball state st).1 r).report.v
          = r.v ∧
      (pointing_device_task_user cosr sinr (layer_state_set_trackball state st).1 r).report.h
          = r.h ∧
      (pointing_device_task_user cosr sinr
          (layer_state_set_trackball state st).1 r).state.scroll_accumulated_v = 0 ∧
      (pointing_device_task_user cosr sinr
          (layer_state_set_trackball state st).1 r).state.scroll_accumulated_h
          = st.scroll_accumulated_h) ∧
    (st.drag_scroll_pressed = true ∨ get_highest_layer state = 3 →
      (layer_state_set_trackball state st).1 = st) := by
  refine ⟨?_, fun hd hl => ?_, fun h => ?_⟩
  · unfold layer_state_set_trackball; split_ifs <;> rfl
  · have e : (layer_state_set_trackball state st).1
        = { st with set_scrolling := false, scroll_accumulated_v := 0 } := by
      simp [layer_state_set_trackball, hd, AUTO_MOUSE_DEFAULT_LAYER, hl]
    rw [e]
    obtain ⟨hx, -, hy, -, hv, hh⟩ := cycle_move cosr sinr
      { st with set_scrolling := false, scroll_accumulated_v := 0 } r rfl
    obtain ⟨fv, fh⟩ := cycle_move_scroll_frame cosr sinr
      { st with set_scrolling := false, scroll_accumulated_v := 0 } r rfl
    exact ⟨rfl, hx, hy, hv, hh, fv, fh⟩
  · rcases h with h | h
    · simp [layer_state_set_trackball, h]
    · simp [layer_state_set_trackball, h, AUTO_MOUSE_DEFAULT_LAYER]

/-- Witness for C12: in scroll mode with the drag key up, a change to layer 2
(mask 4) forces the exit and a change to layer 3 (mask 8) does not. -/
theorem layer_forced_exit_witness :
    (({ TrackballState.init with set_scrolling := true, scroll_accumulated_v := 0.5 }
        : TrackballState).drag_scroll_pressed = false ∧
      get_highest_layer 4 ≠ 3 ∧ get_highest_layer 8 = 3) ∧
    (layer_state_set_trackball 4
        { TrackballState.init with set_scrolling := true, scroll_accumulated_v := 0.5 }).1
      = { ({ TrackballState.init with set_scrolling := true, scroll_accumulated_v := 0.5 }
            : TrackballState) with set_scrolling := false, scroll_accumulated_v := 0 } ∧
    (layer_state_set_trackball 8
        { TrackballState.init with set_scrolling := true, scroll_accumulated_v := 0.5 }).1
      = { TrackballState.init with set_scrolling := true, scroll_accumulated_v := 0.5 } :=
  ⟨⟨rfl, by decide!, by decide!⟩,
   ((layer_forced_exit cos45 cos45 4
      { TrackballState.init with set_scrolling := true, scroll_accumulated_v := 0.5 }
      ⟨0, 1, 1, 0, 0⟩).2.1 rfl (by decide!)).1,
   (layer_forced_exit cos45 cos45 8
      { TrackballState.init with set_scrolling := true, scroll_accumulated_v := 0.5 }
      ⟨0, 1, 1, 0, 0⟩).2.2 (Or.inr (by decide!))⟩

/-! ## Rounding at zero -/

/-- A value strictly between -1 and 1 rounds toward zero to 0. -/
theorem scroll_step_small (acc : ℚ) (h : |acc| < 1) : scroll_step acc = 0 := by
  obtain ⟨h1, h2⟩ := abs_lt.mp h
  unfold scroll_step
  split_ifs with h0
  · have : ⌊acc⌋ = 0 := by
      rw [Int.floor_eq_iff]; constructor
      · exact_mod_cast h0
      · simpa using h2
    rw [this]; rfl
  · have : ⌈acc⌉ = 0 := by
      rw [Int.ceil_eq_iff]; constructor
      · simpa using h1
      · push_neg at h0; exact_mod_cast h0.le
    rw [this]; rfl

/-- C13. Rounding policy at zero: in a scroll-mode cycle, from any state, a
scroll axis whose accumulated value (remainder plus contribution) lies strictly
between -1 and 1 emits step 0 and keeps the accumulated value as its remainder;
in particular an accumulated value of exactly 0 emits step 0 and leaves the
remainder 0. -/
theorem scroll_rounding_at_zero (cosr sinr : ℚ) (st : TrackballState) (r : report_mouse_t)
    (hscroll : st.set_scrolling = true) :
    (|scroll_acc_v cosr sinr st r| < 1 →
      (pointing_device_task_user cosr sinr st r).report.v = 0 ∧
      (pointing_device_task_user cosr sinr st r).state.scroll_accumulated_v
        = scroll_acc_v cosr sinr st r) ∧
    (|scroll_acc_h cosr sinr st r| < 1 →
      (pointing_device_task_user cosr sinr st r).report.h = 0 ∧
      (pointing_device_task_user cosr sinr st r).state.scroll_accumulated_h
        = scroll_acc_h cosr sinr st r) ∧
    (scroll_acc_v cosr sinr st r = 0 →
      (pointing_device_task_user cosr sinr st r).report.v = 0 ∧
      (pointing_device_task_user cosr sinr st r).state.scroll_accumulated_v = 0) ∧
    (scroll_acc_h cosr sinr st r = 0 →
      (pointing_device_task_user cosr sinr st r).report.h = 0 ∧
      (pointing_device_task_user cosr sinr st r).state.scroll_accumulated_h = 0) := by
  obtain ⟨hv, hh, hav, hah, -, -⟩ := cycle_scroll cosr sinr st r hscroll
  have small_v (h : |scroll_acc_v cosr sinr st r| < 1) :
      (pointing_device_task_user cosr sinr st r).report.v = 0 ∧
      (pointing_device_task_user cosr sinr st r).state.scroll_accumulated_v
        = scroll_acc_v cosr sinr st r := by
    rw [hav, hv, scroll_step_small _ h]; simp
  have small_h (h : |scroll_acc_h cosr sinr st r| < 1) :
      (pointing_device_task_user cosr sinr st r).report.h = 0 ∧
      (pointing_device_task_user cosr sinr st r).state.scroll_accumulated_h
        = scroll_acc_h cosr sinr st r := by
    rw [hah, hh, scroll_step_small _ h]; simp
  refine ⟨small_v, small_h, fun h0 => ?_, fun h0 => ?_⟩
  · obtain ⟨e1, e2⟩ := small_v (by rw [h0]; norm_num)
    exact ⟨e1, e2.trans h0⟩
  · obtain ⟨e1, e2⟩ := small_h (by rw [h0]; norm_num)
    exact ⟨e1, e2.trans h0⟩

/-- Witness for C13: a scroll-mode cycle at rest on the sample (0, 0), where
both accumulated values are exactly 0. -/
theorem scroll_rounding_at_zero_witness :
    (({ TrackballState.init with set_scrolling := true } : TrackballState).set_scrolling = true ∧
      scroll_acc_v cos45 cos45 { TrackballState.init with set_scrolling := true }
        ⟨0, 0, 0, 0, 0⟩ = 0) ∧
    (pointing_device_task_user cos45 cos45 { TrackballState.init with set_scrolling := true }
        ⟨0, 0, 0, 0, 0⟩).report.v = 0 ∧
    (pointing_device_task_user cos45 cos45 { TrackballState.init with set_scrolling := true }
        ⟨0, 0, 0, 0, 0⟩).state.scroll_accumulated_v = 0 :=
  ⟨⟨rfl, by decide!⟩,
   (scroll_rounding_at_zero cos45 cos45 { TrackballState.init with set_scrolling := true }
      ⟨0, 0, 0, 0, 0⟩ rfl).2.2.1 (by decide!)⟩

/-! ## Slow diagonal move -/

/-- C14, as stated, fails: four passes of (0.3, 0.3) through the move branch
from zero remainders accumulate 0.6 per axis, below the threshold 1.0, so the
fourth report is neither (0, 1) nor (1, 0). -/
theorem slow_diagonal_counterexample :
    ¬ ((run_move_branch TrackballState.init ⟨0, 0, 0, 0, 0⟩ [(0.3, 0.3), (0.3, 0.3), (0.3, 0.3), (0.3, 0.3)]).map
          (fun o => (o.2.x, o.2.y)) = [(0, 0), (0, 0), (0, 0), (0, 1)] ∨
       (run_move_branch TrackballState.init ⟨0, 0, 0, 0, 0⟩ [(0.3, 0.3), (0.3, 0.3), (0.3, 0.3), (0.3, 0.3)]).map
          (fun o => (o.2.x, o.2.y)) = [(0, 0), (0, 0), (0, 0), (1, 0)]) := by
  decide!

/-- C14, amended. Slow diagonal move: from zero move remainders, (0.3, 0.3)
handed to the move branch on each of four consecutive cycles with
`MOVEMENT_SENSITIVITY = 0.5` accumulates 0.15 per cycle per axis; cycles 1-3
report (0, 0) and cycle 4 reports (0, 0) as well, with both remainders at 0.6;
continued, the first nonzero report is (1, 1) on cycle 7. -/
theorem slow_diagonal_move (st : TrackballState) (r : report_mouse_t)
    (hx : st.x_accumulator = 0) (hy : st.y_accumulator = 0) :
    MOVEMENT_SENSITIVITY = 0.5 ∧
    (run_move_branch st r [(0.3, 0.3), (0.3, 0.3), (0.3, 0.3), (0.3, 0.3)]).map (fun o => (o.2.x, o.2.y))
      = [(0, 0), (0, 0), (0, 0), (0, 0)] ∧
    (run_move_branch st r [(0.3, 0.3), (0.3, 0.3), (0.3, 0.3), (0.3, 0.3)]).map (fun o => (o.1.x_accumulator, o.1.y_accumulator))
      = [(0.15, 0.15), (0.3, 0.3), (0.45, 0.45), (0.6, 0.6)] ∧
    (run_move_branch st r [(0.3, 0.3), (0.3, 0.3), (0.3, 0.3), (0.3, 0.3), (0.3, 0.3), (0.3, 0.3), (0.3, 0.3)]).map (fun o => (o.2.x, o.2.y))
      = [(0, 0), (0, 0), (0, 0), (0, 0), (0, 0), (0, 0), (1, 1)] := by
  refine ⟨rfl, ?_, ?_, ?_⟩ <;>
    (simp only [run_move_branch, move_branch, List.map_cons, List.map_nil, hx, hy]
     decide!)

/-- Witness for C14: the scenario from the initial variables. -/
theorem slow_diagonal_move_witness :
    (TrackballState.init.x_accumulator = 0 ∧ TrackballState.init.y_accumulator = 0) ∧
    (run_move_branch TrackballState.init ⟨0, 0, 0, 0, 0⟩ [(0.3, 0.3), (0.3, 0.3), (0.3, 0.3), (0.3, 0.3)]).map (fun o => (o.2.x, o.2.y))
      = [(0, 0), (0, 0), (0, 0), (0, 0)] :=
  ⟨⟨rfl, rfl⟩, (slow_diagonal_move TrackballState.init ⟨0, 0, 0, 0, 0⟩ rfl rfl).2.1⟩

/-! ## Rotation -/

/-- The rotation keeps the squared length, for any pair of values with
`cosr ^ 2 + sinr ^ 2 = 1`, over any field. -/
theorem rotated_norm_sq {K : Type} [Field K] (cosr sinr : K) (r : report_mouse_t)
    (h : cosr ^ 2 + sinr ^ 2 = 1) :
    rotated_x cosr sinr r ^ 2 + rotated_y cosr sinr r ^ 2 = (r.x : K) ^ 2 + (r.y : K) ^ 2 := by
  unfold rotated_x rotated_y
  linear_combination ((r.x : K) ^ 2 + (r.y : K) ^ 2) * h

/-- C15. Motion Transformer: with the library values of `cos` and `sin` at
`rad = 45 * (π / 180)`, for every raw sample (x, y) the rotated vector is
`rotated_x = -(x * cos rad - y * sin rad)`, `rotated_y = -(x * sin rad + y * cos rad)`;
it has the squared length of the sample in real arithmetic; and the rotated
vector that enters the filter of a cycle is the same from any two states. -/
theorem rotation_with_inversion (cosr sinr : ℚ) (st1 st2 : TrackballState)
    (r : report_mouse_t) :
    rotated_x (Real.cos (((ROTATION_ANGLE_45_DEG : ℚ) : ℝ) * (Real.pi / 180))) (Real.sin (((ROTATION_ANGLE_45_DEG : ℚ) : ℝ) * (Real.pi / 180))) r
      = -((r.x : ℝ) * Real.cos (((ROTATION_ANGLE_45_DEG : ℚ) : ℝ) * (Real.pi / 180)) - (r.y : ℝ) * Real.sin (((ROTATION_ANGLE_45_DEG : ℚ) : ℝ) * (Real.pi / 180))) ∧
    rotated_y (Real.cos (((ROTATION_ANGLE_45_DEG : ℚ) : ℝ) * (Real.pi / 180))) (Real.sin (((ROTATION_ANGLE_45_DEG : ℚ) : ℝ) * (Real.pi / 180))) r
      = -((r.x : ℝ) * Real.sin (((ROTATION_ANGLE_45_DEG : ℚ) : ℝ) * (Real.pi / 180)) + (r.y : ℝ) * Real.cos (((ROTATION_ANGLE_45_DEG : ℚ) : ℝ) * (Real.pi / 180))) ∧
    rotated_x (Real.cos (((ROTATION_ANGLE_45_DEG : ℚ) : ℝ) * (Real.pi / 180))) (Real.sin (((ROTATION_ANGLE_45_DEG : ℚ) : ℝ) * (Real.pi / 180))) r ^ 2
        + rotated_y (Real.cos (((ROTATION_ANGLE_45_DEG : ℚ) : ℝ) * (Real.pi / 180))) (Real.sin (((ROTATION_ANGLE_45_DEG : ℚ) : ℝ) * (Real.pi / 180))) r ^ 2
      = (r.x : ℝ) ^ 2 + (r.y : ℝ) ^ 2 ∧
    (pointing_device_task_user cosr sinr st1 r).state.prev_x - st1.prev_x * SMOOTHING_FACTOR
      = (pointing_device_task_user cosr sinr st2 r).state.prev_x
        - st2.prev_x * SMOOTHING_FACTOR ∧
    (pointing_device_task_user cosr sinr st1 r).state.prev_y - st1.prev_y * SMOOTHING_FACTOR
      = (pointing_device_task_user cosr sinr st2 r).state.prev_y
        - st2.prev_y * SMOOTHING_FACTOR := by
  refine ⟨rfl, rfl, ?_, ?_, ?_⟩
  · exact rotated_norm_sq _ _ r (Real.cos_sq_add_sin_sq _)
  · simp only [cycle_prev_x, smoothed_x]; ring
  · simp only [cycle_prev_y, smoothed_y]; ring

/-! ## Smoothing filter -/

/-- A 0.7 / 0.3 mix of two values lies between them. -/
theorem mix_between (p q : ℚ) :
    min p q ≤ p * SMOOTHING_FACTOR + q * (1.0 - SMOOTHING_FACTOR) ∧
    p * SMOOTHING_FACTOR + q * (1.0 - SMOOTHING_FACTOR) ≤ max p q := by
  unfold SMOOTHING_FACTOR
  rcases le_total p q with h | h
  · rw [min_eq_left h, max_eq_right h]
    constructor <;> norm_num <;> linarith
  · rw [min_eq_right h, max_eq_left h]
    constructor <;> norm_num <;> linarith

/-- A 0.7 / 0.3 mix of two values within `B` is within `B`. -/
theorem mix_bound (p q B : ℚ) (hp : |p| ≤ B) (hq : |q| ≤ B) :
    |p * SMOOTHING_FACTOR + q * (1.0 - SMOOTHING_FACTOR)| ≤ B := by
  rw [abs_le] at hp hq ⊢
  unfold SMOOTHING_FACTOR
  constructor <;> norm_num <;> linarith [hp.1, hp.2, hq.1, hq.2]

/-- C16. Smoothing is a bounded convex combination: from any state, in either
mode, the new `prev_x` is `prev_x * 0.7 + rotated_x * 0.3` and lies between the
minimum and the maximum of the old `prev_x` and `rotated_x`, hence stays within
any bound `B` that holds for both; likewise for y. -/
theorem smoothing_convex (cosr sinr : ℚ) (st : TrackballState) (r : report_mouse_t) :
    ((pointing_device_task_user cosr sinr st r).state.prev_x
        = st.prev_x * 0.7 + rotated_x cosr sinr r * 0.3 ∧
      min st.prev_x (rotated_x cosr sinr r)
        ≤ (pointing_device_task_user cosr sinr st r).state.prev_x ∧
      (pointing_device_task_user cosr sinr st r).state.prev_x
        ≤ max st.prev_x (rotated_x cosr sinr r) ∧
      ∀ B : ℚ, |st.prev_x| ≤ B → |rotated_x cosr sinr r| ≤ B →
        |(pointing_device_task_user cosr sinr st r).state.prev_x| ≤ B) ∧
    ((pointing_device_task_user cosr sinr st r).state.prev_y
        = st.prev_y * 0.7 + rotated_y cosr sinr r * 0.3 ∧
      min st.prev_y (rotated_y cosr sinr r)
        ≤ (pointing_device_task_user cosr sinr st r).state.prev_y ∧
      (pointing_device_task_user cosr sinr st r).state.prev_y
        ≤ max st.prev_y (rotated_y cosr sinr r) ∧
      ∀ B : ℚ, |st.prev_y| ≤ B → |rotated_y cosr sinr r| ≤ B →
        |(pointing_device_task_user cosr sinr st r).state.prev_y| ≤ B) := by
  rw [cycle_prev_x, cycle_prev_y]
  unfold smoothed_x smoothed_y
  refine ⟨⟨?_, (mix_between _ _).1, (mix_between _ _).2, fun B h1 h2 => mix_bound _ _ B h1 h2⟩,
    ⟨?_, (mix_between _ _).1, (mix_between _ _).2, fun B h1 h2 => mix_bound _ _ B h1 h2⟩⟩ <;>
    (unfold SMOOTHING_FACTOR; norm_num)

/-- Witness for C16: history (100, -40), sample (-20, 30), scroll mode, bound 100. -/
theorem smoothing_convex_witness :
    (|({ TrackballState.init with set_scrolling := true, prev_x := 100, prev_y := -40 }
        : TrackballState).prev_x| ≤ 100 ∧
      |rotated_x cos45 cos45 ⟨0, -20, 30, 0, 0⟩| ≤ 100) ∧
    |(pointing_device_task_user cos45 cos45
        { TrackballState.init with set_scrolling := true, prev_x := 100, prev_y := -40 }
        ⟨0, -20, 30, 0, 0⟩).state.prev_x| ≤ 100 :=
  ⟨⟨by decide!, by decide!⟩,
   (smoothing_convex cos45 cos45
      { TrackballState.init with set_scrolling := true, prev_x := 100, prev_y := -40 }
      ⟨0, -20, 30, 0, 0⟩).1.2.2.2 100 (by decide!) (by decide!)⟩

/-! ## Independence of gesture detection and cursor pipeline -/

/-- The gesture detector reads only the gesture variables and the raw x. -/
theorem gesture_detect_congr (st1 st2 : TrackballState) (r1 r2 : report_mouse_t)
    (hm : st1.gesture_mode = st2.gesture_mode)
    (ht : st1.gesture_triggered = st2.gesture_triggered)
    (ha : st1.gesture_accumulated_x = st2.gesture_accumulated_x) (hx : r1.x = r2.x) :
    (gesture_detect st1 r1).1.gesture_triggered = (gesture_detect st2 r2).1.gesture_triggered ∧
    (gesture_detect st1 r1).1.gesture_accumulated_x
      = (gesture_detect st2 r2).1.gesture_accumulated_x ∧
    (gesture_detect st1 r1).2 = (gesture_detect st2 r2).2 := by
  unfold gesture_detect
  simp only [hm, ht, ha, hx]
  split_ifs <;> simp [ht, ha]

/-- C17. Gesture detection is independent of the cursor pipeline: two cycles
that agree on `gesture_mode`, `gesture_triggered`, `gesture_accumulated_x` and
the raw x end with the same gesture variables and send the same taps, whatever
the raw y, the filter state, the accumulators, the flags and the rotation
values are; and two cycles on the same report from states that agree on
everything but the gesture variables return the same report and end with the
same filter state, accumulators and flags. -/
theorem gesture_independence (cosr sinr cosr2 sinr2 : ℚ) (st1 st2 : TrackballState)
    (r1 r2 : report_mouse_t) :
    (st1.gesture_mode = st2.gesture_mode → st1.gesture_triggered = st2.gesture_triggered →
      st1.gesture_accumulated_x = st2.gesture_accumulated_x → r1.x = r2.x →
      (pointing_device_task_user cosr sinr st1 r1).state.gesture_mode
        = (pointing_device_task_user cosr2 sinr2 st2 r2).state.gesture_mode ∧
      (pointing_device_task_user cosr sinr st1 r1).state.gesture_triggered
        = (pointing_device_task_user cosr2 sinr2 st2 r2).state.gesture_triggered ∧
      (pointing_device_task_user cosr sinr st1 r1).state.gesture_accumulated_x
        = (pointing_device_task_user cosr2 sinr2 st2 r2).state.gesture_accumulated_x ∧
      (pointing_device_task_user cosr sinr st1 r1).taps
        = (pointing_device_task_user cosr2 sinr2 st2 r2).taps) ∧
    (st1.set_scrolling = st2.set_scrolling →
      st1.drag_scroll_pressed = st2.drag_scroll_pressed →
      st1.scroll_accumulated_h = st2.scroll_accumulated_h →
      st1.scroll_accumulated_v = st2.scroll_accumulated_v →
      st1.x_accumulator = st2.x_accumulator → st1.y_accumulator = st2.y_accumulator →
      st1.prev_x = st2.prev_x → st1.prev_y = st2.prev_y →
      (pointing_device_task_user cosr sinr st1 r1).report
        = (pointing_device_task_user cosr sinr st2 r1).report ∧
      (pointing_device_task_user cosr sinr st1 r1).state.set_scrolling
        = (pointing_device_task_user cosr sinr st2 r1).state.set_scrolling ∧
      (pointing_device_task_user cosr sinr st1 r1).state.drag_scroll_pressed
        = (pointing_device_task_user cosr sinr st2 r1).state.drag_scroll_pressed ∧
      (pointing_device_task_user cosr sinr st1 r1).state.scroll_accumulated_h
        = (pointing_device_task_user cosr sinr st2 r1).state.scroll_accumulated_h ∧
      (pointing_device_task_user cosr sinr st1 r1).state.scroll_accumulated_v
        = (pointing_device_task_user cosr sinr st2 r1).state.scroll_accumulated_v ∧
      (pointing_device_task_user cosr sinr st1 r1).state.x_accumulator
        = (pointing_device_task_user cosr sinr st2 r1).state.x_accumulator ∧
      (pointing_device_task_user cosr sinr st1 r1).state.y_accumulator
        = (pointing_device_task_user cosr sinr st2 r1).state.y_accumulator ∧
      (pointing_device_task_user cosr sinr st1 r1).state.prev_x
        = (pointing_device_task_user cosr sinr st2 r1).state.prev_x ∧
      (pointing_device_task_user cosr sinr st1 r1).state.prev_y
        = (pointing_device_task_user cosr sinr st2 r1).state.prev_y) := by
  constructor
  · intro hm ht ha hx
    obtain ⟨m1, t1, a1⟩ := cycle_gesture cosr sinr st1 r1
    obtain ⟨m2, t2, a2⟩ := cycle_gesture cosr2 sinr2 st2 r2
    obtain ⟨gt, ga, gtaps⟩ := gesture_detect_congr st1 st2 r1 r2 hm ht ha hx
    rw [m1, m2, t1, t2, a1, a2, cycle_taps, cycle_taps]
    exact ⟨hm, gt, ga, gtaps⟩
  · intro h1 h2 h3 h4 h5 h6 h7 h8
    have ex : scaled_x cosr sinr st1 r1 = scaled_x cosr sinr st2 r1 := by
      simp only [scaled_x, smoothed_x, h7]
    have ey : scaled_y cosr sinr st1 r1 = scaled_y cosr sinr st2 r1 := by
      simp only [scaled_y, smoothed_y, h8]
    have px : smoothed_x cosr sinr st1 r1 = smoothed_x cosr sinr st2 r1 := by
      simp only [smoothed_x, h7]
    have py : smoothed_y cosr sinr st1 r1 = smoothed_y cosr sinr st2 r1 := by
      simp only [smoothed_y, h8]
    unfold pointing_device_task_user
    rw [ex, ey, px, py, h1]
    cases st2.set_scrolling <;>
      simp [scroll_branch, move_branch, h1, h2, h3, h4, h5, h6]

/-- Witness for C17: an armed detector in two states that differ in mode,
history and accumulators, on two samples with the same raw x. -/
theorem gesture_independence_witness :
    (({ TrackballState.init with gesture_mode := true, gesture_accumulated_x := -40 }
        : TrackballState).gesture_accumulated_x
      = ({ TrackballState.init with
            gesture_mode := true, gesture_accumulated_x := -40, set_scrolling := true,
            prev_x := 7, x_accumulator := 0.5 }
        : TrackballState).gesture_accumulated_x) ∧
    (pointing_device_task_user cos45 cos45
        { TrackballState.init with gesture_mode := true, gesture_accumulated_x := -40 }
        ⟨0, -15, 3, 0, 0⟩).taps
      = (pointing_device_task_user 1 0
        { TrackballState.init with
            gesture_mode := true, gesture_accumulated_x := -40, set_scrolling := true,
            prev_x := 7, x_accumulator := 0.5 }
        ⟨1, -15, -90, 0, 0⟩).taps :=
  ⟨rfl,
   ((gesture_independence cos45 cos45 1 0
      { TrackballState.init with gesture_mode := true, gesture_accumulated_x := -40 }
      { TrackballState.init with
            gesture_mode := true, gesture_accumulated_x := -40, set_scrolling := true,
            prev_x := 7, x_accumulator := 0.5 }
      ⟨0, -15, 3, 0, 0⟩ ⟨1, -15, -90, 0, 0⟩).1 rfl rfl rfl rfl).2.2.2⟩

/-! ## Range of the move report -/

/-- C18. Exactness of the `int8_t` move report, evaluated where it fails: after
eight move-mode cycles on the `int8_t` sample (-127, 127) from the initial
state, the ninth cycle on the same sample truncates its accumulator to 129,
outside the `int8_t` range, and reports -127 instead. -/
theorem move_report_cast_overflow :
    (∀ q ∈ List.replicate 9 (⟨0, -127, 127, 0, 0⟩ : report_mouse_t), q.int8) ∧
    (run_state cos45 cos45 TrackballState.init
        (List.replicate 8 ⟨0, -127, 127, 0, 0⟩)).set_scrolling = false ∧
    trunc ((run_state cos45 cos45 TrackballState.init
        (List.replicate 8 ⟨0, -127, 127, 0, 0⟩)).x_accumulator
        + scaled_x cos45 cos45 (run_state cos45 cos45 TrackballState.init
        (List.replicate 8 ⟨0, -127, 127, 0, 0⟩)) ⟨0, -127, 127, 0, 0⟩ * MOVEMENT_SENSITIVITY) = 129 ∧
    (pointing_device_task_user cos45 cos45 (run_state cos45 cos45 TrackballState.init
        (List.replicate 8 ⟨0, -127, 127, 0, 0⟩)) ⟨0, -127, 127, 0, 0⟩).report.x = -127 ∧
    (pointing_device_task_user cos45 cos45 (run_state cos45 cos45 TrackballState.init
        (List.replicate 8 ⟨0, -127, 127, 0, 0⟩)) ⟨0, -127, 127, 0, 0⟩).report.x
      ≠ trunc ((run_state cos45 cos45 TrackballState.init
        (List.replicate 8 ⟨0, -127, 127, 0, 0⟩)).x_accumulator
          + scaled_x cos45 cos45 (run_state cos45 cos45 TrackballState.init
        (List.replicate 8 ⟨0, -127, 127, 0, 0⟩)) ⟨0, -127, 127, 0, 0⟩ * MOVEMENT_SENSITIVITY) := by
  refine ⟨by decide!, by decide!, by decide!, by decide!, by decide!⟩

/-! ## Per-cycle frame -/

/-- C19. Per-cycle frame: a move-mode cycle leaves `scroll_accumulated_v`,
`scroll_accumulated_h`, `set_scrolling` and `drag_scroll_pressed` unchanged and
returns the v and h of the input report; a scroll-mode cycle leaves
`x_accumulator`, `y_accumulator` and both flags unchanged; and the new
`prev_x`, `prev_y` are the same from any two states with the same old
`prev_x`, `prev_y` on samples with the same raw x and y, whatever the modes. -/
theorem cycle_frame (cosr sinr : ℚ) (st st2 : TrackballState) (r r2 : report_mouse_t) :
    (st.set_scrolling = false →
      (pointing_device_task_user cosr sinr st r).state.scroll_accumulated_v
        = st.scroll_accumulated_v ∧
      (pointing_device_task_user cosr sinr st r).state.scroll_accumulated_h
        = st.scroll_accumulated_h ∧
      (pointing_device_task_user cosr sinr st r).state.set_scrolling = st.set_scrolling ∧
      (pointing_device_task_user cosr sinr st r).state.drag_scroll_pressed
        = st.drag_scroll_pressed ∧
      (pointing_device_task_user cosr sinr st r).report.v = r.v ∧
      (pointing_device_task_user cosr sinr st r).report.h = r.h) ∧
    (st.set_scrolling = true →
      (pointing_device_task_user cosr sinr st r).state.x_accumulator = st.x_accumulator ∧
      (pointing_device_task_user cosr sinr st r).state.y_accumulator = st.y_accumulator ∧
      (pointing_device_task_user cosr sinr st r).state.set_scrolling = st.set_scrolling ∧
      (pointing_device_task_user cosr sinr st r).state.drag_scroll_pressed
        = st.drag_scroll_pressed) ∧
    (st2.prev_x = st.prev_x → st2.prev_y = st.prev_y → r2.x = r.x → r2.y = r.y →
      (pointing_device_task_user cosr sinr st2 r2).state.prev_x
        = (pointing_device_task_user cosr sinr st r).state.prev_x ∧
      (pointing_device_task_user cosr sinr st2 r2).state.prev_y
        = (pointing_device_task_user cosr sinr st r).state.prev_y) := by
  refine ⟨fun h => ?_, fun h => ?_, fun h1 h2 h3 h4 => ?_⟩
  · obtain ⟨fv, fh⟩ := cycle_move_scroll_frame cosr sinr st r h
    obtain ⟨-, -, -, -, hv, hh⟩ := cycle_move cosr sinr st r h
    exact ⟨fv, fh, cycle_set_scrolling cosr sinr st r,
      cycle_drag_scroll_pressed cosr sinr st r, hv, hh⟩
  · refine ⟨?_, ?_, cycle_set_scrolling cosr sinr st r,
      cycle_drag_scroll_pressed cosr sinr st r⟩ <;>
      simp [pointing_device_task_user, h, scroll_branch]
  · simp [smoothed_x, smoothed_y, rotated_x, rotated_y, h1, h2, h3, h4]

/-- Witness for C19: a move-mode and a scroll-mode cycle on the sample (5, -3)
from states with the same filter history. -/
theorem cycle_frame_witness :
    ((TrackballState.init.set_scrolling = false ∧
        ({ TrackballState.init with set_scrolling := true, x_accumulator := 0.25 }
          : TrackballState).set_scrolling = true) ∧
      ({ TrackballState.init with set_scrolling := true, x_accumulator := 0.25 }
        : TrackballState).prev_x = TrackballState.init.prev_x) ∧
    (pointing_device_task_user cos45 cos45 TrackballState.init ⟨0, 5, -3, 2, 1⟩).report.v = 2 ∧
    (pointing_device_task_user cos45 cos45
        { TrackballState.init with set_scrolling := true, x_accumulator := 0.25 }
        ⟨0, 5, -3, 0, 0⟩).state.x_accumulator = 0.25 ∧
    (pointing_device_task_user cos45 cos45
        { TrackballState.init with set_scrolling := true, x_accumulator := 0.25 }
        ⟨0, 5, -3, 0, 0⟩).state.prev_x
      = (pointing_device_task_user cos45 cos45 TrackballState.init
        ⟨0, 5, -3, 2, 1⟩).state.prev_x :=
  ⟨⟨⟨rfl, rfl⟩, rfl⟩,
   ((cycle_frame cos45 cos45 TrackballState.init TrackballState.init
      ⟨0, 5, -3, 2, 1⟩ ⟨0, 5, -3, 2, 1⟩).1 rfl).2.2.2.2.1,
   ((cycle_frame cos45 cos45
      { TrackballState.init with set_scrolling := true, x_accumulator := 0.25 }
      TrackballState.init ⟨0, 5, -3, 0, 0⟩ ⟨0, 5, -3, 0, 0⟩).2.1 rfl).1,
   ((cycle_frame cos45 cos45 TrackballState.init
      { TrackballState.init with set_scrolling := true, x_accumulator := 0.25 }
      ⟨0, 5, -3, 2, 1⟩ ⟨0, 5, -3, 0, 0⟩).2.2 rfl rfl rfl rfl).1⟩

end Trackball
